import Mathlib

/-!
Verification development for the core runtime sound engine
(src/sound/s_sound.cpp, src/sound/s_soundinternal.h) and the typed
serializer (src/serializer.cpp).

The C++ code is shallowly embedded: pure functions become Lean functions,
the engine's mutable state (the sfxinfo registry, the active and free
channel lists) becomes an explicit state record that every operation
threads through.  Machine floats are idealized as rationals inside the
engine (only orderings and field arithmetic are used there) and as reals
in the rolloff curve evaluation (which uses a real power).  External
collaborators (backend driver, position provider, resource loader, the C
random number generator) are oracles carried in an environment record or
passed as explicit streams, exactly at the call sites where the source
consults them.
-/

namespace GZDoomSound

/-- 3-component vector (source `FVector3`), components idealized as ℚ. -/
structure FVec3 where
  x : ℚ
  y : ℚ
  z : ℚ
deriving DecidableEq, Repr, Inhabited

/-- Squared length of the difference of two vectors, as used by
`(chanorigin - pos).LengthSquared()` in `CheckSoundLimit`. -/
def distSq (a b : FVec3) : ℚ :=
  (a.x - b.x) * (a.x - b.x) + (a.y - b.y) * (a.y - b.y) + (a.z - b.z) * (a.z - b.z)

/-- Rolloff curve types (source enum `ROLLOFF_Doom`, `ROLLOFF_Linear`,
`ROLLOFF_Log`, `ROLLOFF_Custom` in s_soundinternal.h). -/
inductive RolloffKind where
  | doom
  | linear
  | log
  | custom
deriving DecidableEq, Repr, Inhabited

/-- Rolloff descriptor (source `FRolloffInfo`), parametric in the number
type: the engine state uses ℚ, the curve evaluation `GetRolloff` uses ℝ. -/
structure FRolloffInfo (α : Type) where
  RolloffType : RolloffKind
  MinDistance : α
  MaxDistance : α
  RolloffFactor : α
deriving DecidableEq, Repr

instance {α : Type} [Inhabited α] : Inhabited (FRolloffInfo α) :=
  ⟨⟨.doom, default, default, default⟩⟩

/-- Channel flag set.  The source keeps these as bits of an `int`
(`CHAN_IS3D = 1`, `CHAN_EVICTED = 2`, `CHAN_FORGETTABLE = 4`,
`CHAN_LISTENERZ = 8`, `CHAN_MAYBE_LOCAL = 16`, `CHAN_UI = 32`,
`CHAN_NOPAUSE = 64`, `CHAN_AREA = 128`, `CHAN_LOOP = 256`,
`CHAN_JUSTSTARTED = 512`, `CHAN_ABSTIME = 1024`, `CHAN_VIRTUAL = 2048`,
`CHAN_NOSTOP = 4096`); the embedding gives each bit a named field. -/
structure ChanFlags where
  is3d : Bool
  evicted : Bool
  forgettable : Bool
  listenerz : Bool
  maybeLocal : Bool
  ui : Bool
  nopause : Bool
  area : Bool
  loop : Bool
  justStarted : Bool
  abstime : Bool
  virt : Bool
  nostop : Bool
deriving DecidableEq, Repr

/-- The all-clear flag set (a zeroed `ChanFlags` int). -/
def ChanFlags.zero : ChanFlags :=
  ⟨false, false, false, false, false, false, false, false, false, false, false, false, false⟩

instance : Inhabited ChanFlags := ⟨ChanFlags.zero⟩

/-- Bitwise or of two flag sets (source `|=` on `ChanFlags` ints). -/
def ChanFlags.union (a b : ChanFlags) : ChanFlags where
  is3d := a.is3d || b.is3d
  evicted := a.evicted || b.evicted
  forgettable := a.forgettable || b.forgettable
  listenerz := a.listenerz || b.listenerz
  maybeLocal := a.maybeLocal || b.maybeLocal
  ui := a.ui || b.ui
  nopause := a.nopause || b.nopause
  area := a.area || b.area
  loop := a.loop || b.loop
  justStarted := a.justStarted || b.justStarted
  abstime := a.abstime || b.abstime
  virt := a.virt || b.virt
  nostop := a.nostop || b.nostop

/-- Decode the flag bits of a packed `channel` argument
(source `chanflags = channel & ~7`): bits 0..2 are the emitter slot and
are cleared here, the named flag bits are read off bits 3..12. -/
def ChanFlags.fromPacked (n : Nat) : ChanFlags where
  is3d := false
  evicted := false
  forgettable := false
  listenerz := n.testBit 3
  maybeLocal := n.testBit 4
  ui := n.testBit 5
  nopause := n.testBit 6
  area := n.testBit 7
  loop := n.testBit 8
  justStarted := n.testBit 9
  abstime := n.testBit 10
  virt := n.testBit 11
  nostop := n.testBit 12

/-- Source type tags (source enum `SOURCE_None`, `SOURCE_Actor`,
`SOURCE_Sector`, `SOURCE_Polyobj`, `SOURCE_Unattached`). -/
inductive SourceKind where
  | noSource
  | actor
  | sector
  | polyobj
  | unattached
deriving DecidableEq, Repr, Inhabited

/-- One logical sound's metadata (source `sfxinfo_t`).  Only the fields
the embedded operations read are modelled; the decoded handles `data`
and `data3d` are modelled by their validity flags, which is all the
scheduler inspects. -/
structure SfxInfo where
  lumpnum : Int
  Volume : ℚ
  Attenuation : ℚ
  PitchMask : Nat
  NearLimit : Int
  LimitRange : ℚ
  bRandomHeader : Bool
  bSingular : Bool
  bLoadRAW : Bool
  link : Option Nat
  Rolloff : FRolloffInfo ℚ
  data : Bool
  data3d : Bool
deriving DecidableEq, Repr

instance : Inhabited SfxInfo :=
  ⟨⟨-1, 0, 0, 0, 0, 0, false, false, false, none, default, false, false⟩⟩

/-- One playback channel (source `FSoundChan`).  The intrusive list
pointers are replaced by membership in the state's lists; the backend
voice handle `SysChannel` is an optional opaque id. -/
structure FSoundChan where
  SoundID : Nat
  OrgID : Nat
  EntChannel : Nat
  ChanFlags : ChanFlags
  SourceType : SourceKind
  Source : Option Nat
  Point : FVec3
  Volume : ℚ
  Pitch : Int
  Priority : Int
  NearLimit : Int
  LimitRange : ℚ
  DistanceScale : ℚ
  SysChannel : Option Nat
  StartTime : Nat
deriving DecidableEq, Repr

/-- A freshly zeroed channel (source `memset(chan, 0, sizeof(*chan))`). -/
def FSoundChan.zero : FSoundChan :=
  ⟨0, 0, 0, ChanFlags.zero, .noSource, none, ⟨0, 0, 0⟩, 0, 0, 0, 0, 0, 0, none, 0⟩

instance : Inhabited FSoundChan := ⟨FSoundChan.zero⟩

/-- The engine's mutable state: the sfxinfo registry `S_sfx`, the random
sound lists `S_rnd` (each one the `Choices` array of an
`FRandomSoundList`), the global default rolloff `S_Rolloff`, and the two
channel lists.  List heads correspond to the heads of the source's
intrusive lists (`LinkChannel` prepends). -/
structure EngineState where
  S_sfx : List SfxInfo
  S_rnd : List (List Nat)
  S_Rolloff : FRolloffInfo ℚ
  Channels : List FSoundChan
  FreeChannels : List FSoundChan
deriving DecidableEq, Repr

/-- Registry lookup `S_sfx[id]` (out-of-range access, undefined in the
C++, yields the default record). -/
def EngineState.sfx (s : EngineState) (id : Nat) : SfxInfo :=
  s.S_sfx.getD id default

/-- External collaborators of the engine, as oracles: client callbacks
(`CalcPosVel`, `ValidatePosVel`), loader (`ReadSound` size), backend
decoders and voice start success, globals (`nosfx`, `nosound`,
`SoundPaused`, `sfx_empty`, the listener object), and the backend's
current stream time used by `MarkStartTime`. -/
structure Env where
  nosfx : Bool
  nosound : Bool
  SoundPaused : Bool
  isNull : Bool
  sfx_empty : Int
  listenerObject : Option Nat
  calcPosVel : SourceKind → Option Nat → Option FVec3 → Nat → ChanFlags → FVec3 × FVec3
  validatePosVel : SourceKind → Option Nat → FVec3 → FVec3 → Bool
  lumpSize : Int → Nat
  decodeOk : Int → Bool
  decodeOk3d : Int → Bool
  backendOk : Bool
  time : Nat

/-- C cast `int(x)` on a non-negative quantity truncates toward zero. -/
def ratTrunc (q : ℚ) : Int := if 0 ≤ q then ⌊q⌋ else -⌊-q⌋

/-- Update entry `i` of the registry (in-place mutation of `S_sfx[i]` in
the source); out-of-range indices leave the state unchanged. -/
def updateSfx (s : EngineState) (i : Nat) (f : SfxInfo → SfxInfo) : EngineState :=
  { s with S_sfx := s.S_sfx.set i (f (s.S_sfx.getD i default)) }

/-- The `rolloff` local of `StartSound` is a pointer: it aims at some
registry entry's `Rolloff`, at the global `S_Rolloff`, or at the
caller's `forcedrolloff`.  Modelling it as a reference keeps the
source's aliasing (the registry entry it points at may be rewritten by
`LoadSound` before the pointer is consumed). -/
inductive RolloffRef where
  | sfxEntry (i : Nat)
  | global
  | forced
deriving DecidableEq, Repr

/-- Dereference a `RolloffRef` in a state. -/
def rolloffDeref (s : EngineState) (forcedrolloff : Option (FRolloffInfo ℚ)) :
    RolloffRef → FRolloffInfo ℚ
  | .sfxEntry i => (s.sfx i).Rolloff
  | .global => s.S_Rolloff
  | .forced => forcedrolloff.getD default

/-- `SoundEngine::CheckSingular` (s_sound.cpp:840): true when some active
channel's `OrgID` equals the given (resolved) sound id. -/
def CheckSingular (s : EngineState) (sound_id : Nat) : Bool :=
  s.Channels.any (fun chan => chan.OrgID == sound_id)

/-- Loop body of `SoundEngine::CheckSoundLimit` (s_sound.cpp:869): walks
the active list while `count < near_limit`; non-evicted channels whose
resolved sfx matches either trigger the restart exemption (same
`(source_type, actor, channel)` tuple, `return false`) or bump the count
when within `limit_range` squared distance of `pos`.  The channel's
origin comes from the client's `CalcPosVel`. -/
def CheckSoundLimitAux (env : Env) (sfxId : Nat) (pos : FVec3) (near_limit : Int)
    (limit_range : ℚ) (sourcetype : SourceKind) (actor : Option Nat) (channel : Nat) :
    List FSoundChan → Int → Bool
  | [], count => count ≥ near_limit
  | chan :: rest, count =>
    if ¬ (count < near_limit) then count ≥ near_limit
    else if ¬ chan.ChanFlags.evicted ∧ chan.SoundID = sfxId then
      if actor ≠ none ∧ chan.EntChannel = channel ∧ chan.SourceType = sourcetype ∧
          chan.Source = actor then
        false
      else
        let chanorigin :=
          (env.calcPosVel chan.SourceType chan.Source (some chan.Point)
            chan.EntChannel chan.ChanFlags).1
        if distSq chanorigin pos ≤ limit_range then
          CheckSoundLimitAux env sfxId pos near_limit limit_range sourcetype actor channel
            rest (count + 1)
        else
          CheckSoundLimitAux env sfxId pos near_limit limit_range sourcetype actor channel
            rest count
    else
      CheckSoundLimitAux env sfxId pos near_limit limit_range sourcetype actor channel
        rest count

/-- `SoundEngine::CheckSoundLimit`: entry point, `count` starts at 0. -/
def CheckSoundLimit (env : Env) (s : EngineState) (sfxId : Nat) (pos : FVec3)
    (near_limit : Int) (limit_range : ℚ) (sourcetype : SourceKind) (actor : Option Nat)
    (channel : Nat) : Bool :=
  CheckSoundLimitAux env sfxId pos near_limit limit_range sourcetype actor channel
    s.Channels 0

/-- Scan loop of `SoundEngine::IsChannelUsed` (s_sound.cpp:1095): records
every slot of this source in the `seen` bitmask as it walks, returning
true as soon as the requested slot is found. -/
def IsChannelUsedAux (sourcetype : SourceKind) (actor : Option Nat) (channel : Nat) :
    List FSoundChan → Nat → Bool × Nat
  | [], seen => (false, seen)
  | chan :: rest, seen =>
    if chan.SourceType = sourcetype ∧ chan.Source = actor then
      let seen := seen ||| (1 <<< chan.EntChannel)
      if chan.EntChannel = channel then (true, seen)
      else IsChannelUsedAux sourcetype actor channel rest seen
    else IsChannelUsedAux sourcetype actor channel rest seen

/-- `SoundEngine::IsChannelUsed`: the `seen` bitmask short-circuits the
scan when the slot was already observed. -/
def IsChannelUsed (s : EngineState) (sourcetype : SourceKind) (actor : Option Nat)
    (channel : Nat) (seen : Nat) : Bool × Nat :=
  if seen.testBit channel then (true, seen)
  else IsChannelUsedAux sourcetype actor channel s.Channels seen

/-- The descending probe `for (channel = 7; channel > 0; --channel)` of
`StartSound` (s_sound.cpp:509): first unused slot wins; reaching 0 means
no free slot (`return NULL`). -/
def autoChannelLoop (s : EngineState) (sourcetype : SourceKind) (actor : Option Nat) :
    Nat → Nat → Option (Nat × Nat)
  | 0, _ => none
  | ch + 1, seen =>
    let r := IsChannelUsed s sourcetype actor (ch + 1) seen
    if ¬ r.1 then some (ch + 1, r.2)
    else autoChannelLoop s sourcetype actor ch r.2

/-- Channel slot selection for slot AUTO (s_sound.cpp:498-521): probe
slot 0 first, else walk 7 down to 1.  Returns the chosen slot and the
accumulated `seen` mask, or none when every slot is taken. -/
def selectAutoChannel (s : EngineState) (sourcetype : SourceKind) (actor : Option Nat) :
    Option (Nat × Nat) :=
  let r0 := IsChannelUsed s sourcetype actor 0 0
  if ¬ r0.1 then some (0, r0.2)
  else autoChannelLoop s sourcetype actor 7 r0.2

/-- `SoundEngine::PickReplacement` (s_sound.cpp:1630): while the current
entry is a random header, replace it by a uniformly chosen entry of its
random list.  The C random stream is the explicit `rnds` list; the
source's unbounded `while` is given fuel, exhaustion (a data cycle the
source would spin on forever) yields none. -/
def PickReplacement (s : EngineState) : Nat → Nat → List Nat → Option (Nat × List Nat)
  | 0, refid, rnds =>
    if (s.sfx refid).bRandomHeader then none else some (refid, rnds)
  | fuel + 1, refid, rnds =>
    if (s.sfx refid).bRandomHeader then
      let choices := s.S_rnd.getD ((s.sfx refid).link.getD 0) []
      PickReplacement s fuel (choices.getD (rnds.headD 0 % choices.length) 0) rnds.tail
    else some (refid, rnds)

/-- Result of the link-resolution loop of `StartSound`. -/
structure ResolveResult where
  id : Nat
  rnds : List Nat
  near_limit : Int
  limit_range : ℚ
  rolloff : RolloffRef
  attenuation : ℚ
deriving DecidableEq, Repr

/-- The link-resolution loop of `StartSound` (s_sound.cpp:403-434):
`while (sfx->link != NO_LINK)` follow random picks or static links,
inheriting near-limit/limit-range when the running `near_limit` is
negative and adopting the target's rolloff when the current one is
unset.  Random picks also multiply the attenuation by the header's
`Attenuation`.  Fuelled: the source loops forever on cyclic data. -/
def resolveLinks (s : EngineState) (pickFuel : Nat) :
    Nat → Nat → List Nat → Int → ℚ → RolloffRef → ℚ → Option ResolveResult
  | 0, sound_id, rnds, near_limit, limit_range, rolloff, attenuation =>
    if (s.sfx sound_id).link = none then
      some ⟨sound_id, rnds, near_limit, limit_range, rolloff, attenuation⟩
    else none
  | fuel + 1, sound_id, rnds, near_limit, limit_range, rolloff, attenuation =>
    match (s.sfx sound_id).link with
    | none => some ⟨sound_id, rnds, near_limit, limit_range, rolloff, attenuation⟩
    | some l =>
      if (s.sfx sound_id).bRandomHeader then
        let attenuation := attenuation * (s.sfx sound_id).Attenuation
        match PickReplacement s pickFuel sound_id rnds with
        | none => none
        | some (sid, rnds) =>
          let nl := if near_limit < 0 then (s.sfx sid).NearLimit else near_limit
          let lr := if near_limit < 0 then (s.sfx sid).LimitRange else limit_range
          let ro := if (rolloffDeref s none rolloff).MinDistance = 0 then
              RolloffRef.sfxEntry sid else rolloff
          resolveLinks s pickFuel fuel sid rnds nl lr ro attenuation
      else
        let sid := l
        let nl := if near_limit < 0 then (s.sfx sid).NearLimit else near_limit
        let lr := if near_limit < 0 then (s.sfx sid).LimitRange else limit_range
        let ro := if (rolloffDeref s none rolloff).MinDistance = 0 then
            RolloffRef.sfxEntry sid else rolloff
        resolveLinks s pickFuel fuel sid rnds nl lr ro attenuation

/-- Fuel bound used for both resolution loops; any value at least the
length of the (acyclic) link chain gives the source's behaviour, and the
claims below hypothesize successful resolution. -/
def linkFuel (s : EngineState) : Nat := s.S_sfx.length + s.S_rnd.length + 8

/-- The dedup scan of `SoundEngine::LoadSound` (s_sound.cpp:720): first
registry entry with a valid handle, no link, and the same lump. -/
def dedupScan (s : EngineState) (lump : Int) : Option Nat :=
  (List.range s.S_sfx.length).find? (fun i =>
    (s.sfx i).data ∧ (s.sfx i).link = none ∧ (s.sfx i).lumpnum = lump)

/-- The `while (!sfx->data.isValid())` loop of `SoundEngine::LoadSound`
(s_sound.cpp:708-779).  Decoder dispatch (VOC / raw / DMX / generic) is
collapsed into the backend oracles `lumpSize`, `decodeOk` and
`decodeIs3d`-style `decodeOk3d`: every branch only produces a handle,
and the engine inspects nothing but its validity.  The loop body runs at
most twice (a failed decode retries once with the empty sentinel), so
fuel 3 is exact. -/
def LoadSoundLoop (env : Env) : Nat → EngineState → Nat → EngineState × Nat
  | 0, s, idx => (s, idx)
  | fuel + 1, s, idx =>
    if (s.sfx idx).data then (s, idx)
    else
      let s := if (s.sfx idx).lumpnum = -1 then
          updateSfx s idx (fun f => { f with lumpnum := env.sfx_empty }) else s
      match dedupScan s (s.sfx idx).lumpnum with
      | some i =>
        let s := updateSfx s idx (fun f =>
          { f with link := some i,
                   Rolloff := if f.Rolloff.MinDistance = 0 then s.S_Rolloff else f.Rolloff })
        (s, i)
      | none =>
        let lump := (s.sfx idx).lumpnum
        let s := if env.lumpSize lump > 8 then
            updateSfx s idx (fun f =>
              { f with data := env.decodeOk lump,
                       data3d := if env.decodeOk lump then env.decodeOk lump || f.data3d
                                 else f.data3d })
          else s
        if ¬ (s.sfx idx).data ∧ (s.sfx idx).lumpnum ≠ env.sfx_empty then
          LoadSoundLoop env fuel (updateSfx s idx (fun f => { f with lumpnum := env.sfx_empty })) idx
        else (s, idx)

/-- `SoundEngine::LoadSound`: returns the updated state and the index of
the sfxinfo actually carrying the data (the dedup target when a link was
installed). -/
def LoadSound (env : Env) (s : EngineState) (idx : Nat) : EngineState × Nat :=
  if env.isNull then (s, idx) else LoadSoundLoop env 3 s idx

/-- `SoundEngine::LoadSound3D` (s_sound.cpp:783): ensure `data3d` is
populated; decode success is the backend oracle `decodeOk3d`. -/
def LoadSound3D (env : Env) (s : EngineState) (idx : Nat) : EngineState :=
  if env.isNull then s
  else if (s.sfx idx).data3d then s
  else updateSfx s idx (fun f => { f with data3d := env.decodeOk3d f.lumpnum })

/-- `SoundEngine::GetChannel` (s_sound.cpp:207): pop a free channel (or
allocate a zeroed one), link it at the head of the active list, install
the backend voice handle. -/
def GetChannel (s : EngineState) (syschan : Option Nat) : EngineState :=
  let chan := s.FreeChannels.headD FSoundChan.zero
  let chan := { chan with SysChannel := syschan }
  { s with Channels := chan :: s.Channels,
           FreeChannels := s.FreeChannels.tail }

/-- `SoundEngine::ReturnChannel` (s_sound.cpp:234) applied to the channel
at position `i` of the active list: unlink, zero out, prepend to the
free list. -/
def ReturnChannelAt (s : EngineState) (i : Nat) : EngineState :=
  { s with Channels := s.Channels.eraseIdx i,
           FreeChannels := FSoundChan.zero :: s.FreeChannels }

/-- The evicted-vs-natural decision of `SoundEngine::ChannelEnded`
(s_sound.cpp:1312-1332), with the backend's reported playback position
and sample length as inputs. -/
def channelEndedEvicted (flags : ChanFlags) (pos len : Nat) : Bool :=
  if flags.forgettable then false
  else if flags.loop || flags.evicted then true
  else if pos = 0 then flags.justStarted
  else pos < len

/-- `SoundEngine::ChannelEnded` for the channel at position `i`: park
(set `Evicted`, clear `SysChannel`) or retire (return to Free). -/
def ChannelEndedAt (s : EngineState) (i : Nat) (pos len : Nat) : EngineState :=
  match s.Channels[i]? with
  | none => s
  | some c =>
    if channelEndedEvicted c.ChanFlags pos len then
      let c1 := { c with ChanFlags := { c.ChanFlags with evicted := true },
                         SysChannel := (none : Option Nat) }
      { s with Channels := s.Channels.set i c1 }
    else ReturnChannelAt s i

/-- Effect of `SoundEngine::StopChannel` (s_sound.cpp:1370) on a single
channel value.  A channel with a live backend voice is marked
`Forgettable` (unless evicted) with an actor source nulled, then the
backend stop triggers `ChannelEnded`; without a voice it is returned to
the free list directly.  Result: the parked replacement value, or none
when the channel is retired. -/
def stopChannelResult (c : FSoundChan) (pos len : Nat) : Option FSoundChan :=
  if c.SysChannel ≠ none then
    let c1 := if ¬ c.ChanFlags.evicted then
        { c with ChanFlags := { c.ChanFlags with forgettable := true },
                 Source := if c.SourceType = .actor then none else c.Source }
      else c
    if channelEndedEvicted c1.ChanFlags pos len then
      some { c1 with ChanFlags := { c1.ChanFlags with evicted := true }, SysChannel := none }
    else none
  else none

/-- `SoundEngine::StopChannel` applied to the channel at position `i`. -/
def StopChannelAt (s : EngineState) (i : Nat) (pos len : Nat) : EngineState :=
  match s.Channels[i]? with
  | none => s
  | some c =>
    match stopChannelResult c pos len with
    | some c1 => { s with Channels := s.Channels.set i c1 }
    | none => ReturnChannelAt s i

/-- The traversal of the one-argument `SoundEngine::StopSound`
(s_sound.cpp:905): every `SOURCE_None` channel is stopped (the saved
`next` pointer makes the loop visit each original channel once).
Returns the surviving active list and the channels retired to Free. -/
def stopNoneAux : List FSoundChan → List FSoundChan × List FSoundChan
  | [] => ([], [])
  | c :: rest =>
    let r := stopNoneAux rest
    if c.SourceType = .noSource then
      match stopChannelResult c 0 0 with
      | some c1 => (c1 :: r.1, r.2)
      | none => (r.1, FSoundChan.zero :: r.2)
    else (c :: r.1, r.2)

/-- One-argument `SoundEngine::StopSound(int channel)`: stops every
channel whose source type is `SOURCE_None`; the `channel` argument is
never read by the body. -/
def StopSound1 (s : EngineState) (channel : Int) : EngineState :=
  let r := stopNoneAux s.Channels
  { s with Channels := r.1, FreeChannels := r.2 ++ s.FreeChannels }

/-- The collision predicate of `StartSound` (s_sound.cpp:526-539): same
source type and emitter slot, and for `SOURCE_Unattached` the exact
point coordinates, otherwise the same source pointer. -/
def collisionPred (type : SourceKind) (source : Option Nat) (pt : Option FVec3)
    (channel : Nat) (chan : FSoundChan) : Bool :=
  chan.SourceType = type ∧ chan.EntChannel = channel ∧
    (if type = .unattached then pt = some chan.Point else chan.Source = source)

/-- Update the head of the active list (the channel just allocated by
`GetChannel`, which prepends). -/
def updateChanHead (s : EngineState) (f : FSoundChan → FSoundChan) : EngineState :=
  { s with Channels := match s.Channels with
    | [] => []
    | c :: rest => f c :: rest }

/-- The start-and-record tail of `SoundEngine::StartSound`
(s_sound.cpp:560-622): a blocked (evicted) request skips the backend; a
3D start loads the 3D handle first; backend acceptance (`env.backendOk`)
allocates the channel the backend hands back; a refused or blocked
looping request is parked via `GetChannel(NULL)` with its start time
marked and `Evicted` set; any allocated channel gets the final field
assignments. -/
def backendStartAttempt (env : Env) (s : EngineState) (chanflags : ChanFlags)
    (attenuation : ℚ) (sfxIdx : Nat) : Bool × EngineState :=
  if chanflags.evicted then (false, s)
  else if attenuation > 0 then
    let s := LoadSound3D env s sfxIdx
    if env.backendOk then (true, GetChannel s (some 1)) else (false, s)
  else
    if env.backendOk then (true, GetChannel s (some 1)) else (false, s)

def startSoundBackendPhase (env : Env) (s : EngineState) (type : SourceKind)
    (source : Option Nat) (pt : Option FVec3) (channel : Nat) (chanflags : ChanFlags)
    (sfxIdx : Nat) (sound_id : Nat) (org_id : Nat) (volume attenuation : ℚ)
    (near_limit : Int) (limit_range : ℚ) (basepriority : Int) (pitch : Int)
    (spitch : ℚ) : Option FSoundChan × EngineState :=
  let started : Bool × EngineState :=
    backendStartAttempt env s chanflags attenuation sfxIdx
  let parked : Bool × ChanFlags × EngineState :=
    if ¬ started.1 ∧ chanflags.loop then
      let s := GetChannel started.2 none
      let s := updateChanHead s (fun c => { c with StartTime := env.time })
      (true, { chanflags with evicted := true }, s)
    else (started.1, chanflags, started.2)
  let gotChan := parked.1
  let chanflags := parked.2.1
  let s := parked.2.2
  let chanflags :=
    if attenuation > 0 then { chanflags with is3d := true, justStarted := true }
    else { chanflags with listenerz := true, justStarted := true }
  if gotChan then
    let s := updateChanHead s (fun c =>
      let c := { c with SoundID := sound_id, OrgID := org_id, EntChannel := channel,
                        Volume := volume, ChanFlags := c.ChanFlags.union chanflags,
                        NearLimit := near_limit, LimitRange := limit_range,
                        Pitch := pitch, Priority := basepriority,
                        DistanceScale := attenuation, SourceType := type }
      let c := if type = .unattached then { c with Point := pt.getD c.Point }
               else if type ≠ .noSource then { c with Source := source }
               else c
      if spitch > 0 then { c with Pitch := max 1 (ratTrunc (128 * spitch)) } else c)
    (some (s.Channels.headD FSoundChan.zero), s)
  else (none, s)

/-- `SoundEngine::StartSound` from the blocked-and-not-looped early
return onward (s_sound.cpp:471-623): resource load, empty-sound check,
priority, auto slot selection, collision stop, pause gate, pitch
randomization, then the backend phase.  The `rnds` list feeds the two
`rand()` calls of pitch randomization. -/
def startSoundAfterChecks (env : Env) (s : EngineState) (type : SourceKind)
    (source : Option Nat) (pt : Option FVec3) (channel : Nat) (chanflags : ChanFlags)
    (sound_id : Nat) (org_id : Nat) (volume attenuation : ℚ) (near_limit : Int)
    (limit_range : ℚ) (rolloff : RolloffRef) (forcedrolloff : Option (FRolloffInfo ℚ))
    (pitchmask : Nat) (spitch : ℚ) (rnds : List Nat) : Option FSoundChan × EngineState :=
  if chanflags.evicted ∧ ¬ chanflags.loop then (none, s) else
  let ls := LoadSound env s sound_id
  let s := ls.1
  let sfxIdx := ls.2
  if (s.sfx sfxIdx).lumpnum = env.sfx_empty then (none, s) else
  let basepriority : Int := if type = .noSource ∨ source = env.listenerObject then 80 else 0
  let sel : Option (Nat × Nat) :=
    if source ≠ none ∧ channel = 0 then selectAutoChannel s type source
    else some (channel, 0)
  match sel with
  | none => (none, s)
  | some (channel, seen) =>
    let s :=
      if type ≠ .noSource ∧ ((source = none ∧ channel ≠ 0) ∨
          (source ≠ none ∧ (IsChannelUsed s type source channel seen).1)) then
        match s.Channels.findIdx? (collisionPred type source pt channel) with
        | some i => StopChannelAt s i 0 0
        | none => s
      else s
    if ¬ chanflags.loop ∧ ¬ (chanflags.ui || chanflags.nopause) ∧ env.SoundPaused then
      (none, s)
    else
    let pitch : Int :=
      if pitchmask ≠ 0 then
        128 - Int.ofNat (rnds.headD 0 &&& pitchmask) + Int.ofNat ((rnds.tail).headD 0 &&& pitchmask)
      else 128
    startSoundBackendPhase env s type source pt channel chanflags sfxIdx sound_id
      org_id volume attenuation near_limit limit_range basepriority pitch spitch

/-- `SoundEngine::StartSound` (s_sound.cpp:357-623).  Arguments follow
the source signature; `channelArg` is the packed channel+flags int,
`rnds` the C random stream.  The guard block, position/volume checks,
link resolution, rolloff overrides and the singular/near-limit checks
are here; everything after the blocked-non-loop early return is in
`startSoundAfterChecks`. -/
def StartSound (env : Env) (s : EngineState) (type0 : SourceKind) (source : Option Nat)
    (pt : Option FVec3) (channelArg : Nat) (sound_id : Int) (volume0 : ℚ)
    (attenuation : ℚ) (forcedrolloff : Option (FRolloffInfo ℚ)) (spitch : ℚ)
    (rnds : List Nat) : Option FSoundChan × EngineState :=
  if sound_id ≤ 0 ∨ volume0 ≤ 0 ∨ env.nosfx ∨ env.nosound then (none, s) else
  let type := if type0 = .unattached ∧ pt = none then .noSource else type0
  let org_id := sound_id.toNat
  let chanflags := ChanFlags.fromPacked channelArg
  let channel := channelArg % 8
  let pv := env.calcPosVel type source pt channel chanflags
  if ¬ env.validatePosVel type source pv.1 pv.2 then (none, s) else
  let sid := sound_id.toNat
  let volume := min (volume0 * (s.sfx sid).Volume) 1
  if volume ≤ 0 then (none, s) else
  match resolveLinks s (linkFuel s) (linkFuel s) sid rnds (s.sfx sid).NearLimit
      (s.sfx sid).LimitRange (RolloffRef.sfxEntry sid) attenuation with
  | none => (none, s)
  | some res =>
    let attenuation := res.attenuation * (s.sfx res.id).Attenuation
    let rolloff := match forcedrolloff with
      | some fr => if fr.MinDistance ≠ 0 then RolloffRef.forced else res.rolloff
      | none => res.rolloff
    let rolloff := if (rolloffDeref s forcedrolloff rolloff).MinDistance = 0 then
        RolloffRef.global else rolloff
    let chanflags := if (s.sfx res.id).bSingular ∧ CheckSingular s res.id then
        { chanflags with evicted := true } else chanflags
    let near_limit := if type = .noSource ∨ source = env.listenerObject then 0
        else res.near_limit
    let chanflags := if near_limit > 0 ∧ CheckSoundLimit env s res.id pv.1 near_limit
        res.limit_range type (if type = .actor then source else none) channel then
        { chanflags with evicted := true } else chanflags
    startSoundAfterChecks env s type source pt channel chanflags res.id org_id volume
      attenuation near_limit res.limit_range rolloff forcedrolloff ((s.sfx sid).PitchMask)
      spitch res.rnds

/-- C cast `int(x)` on a real, truncating toward zero. -/
noncomputable def realTrunc (x : ℝ) : Int := if 0 ≤ x then ⌊x⌋ else -⌊-x⌋

/-- Tail of `SoundEngine::GetRolloff` (s_sound.cpp:1282-1292): the value
in the strict mid-region, computed from the linear `volume` fraction:
the fraction itself for Linear, a (truncating) sound-curve sample over
127 for Custom with a non-empty curve, the exponential Doom curve
otherwise. -/
noncomputable def midRolloff (curve : List ℝ) (r : FRolloffInfo ℝ) (distance : ℝ) : ℝ :=
  let volume := (r.MaxDistance - distance) / (r.MaxDistance - r.MinDistance)
  if r.RolloffType = .linear then volume
  else if r.RolloffType = .custom ∧ 0 < curve.length then
    curve.getD (realTrunc ((curve.length : ℝ) * (1 - volume))).toNat 0 / 127
  else ((10 : ℝ) ^ volume - 1) / 9

/-- `SoundEngine::GetRolloff` (s_sound.cpp:1262): volume factor for a
rolloff descriptor at a distance.  Floats are idealized as reals (the
Doom curve takes a real power of 10); `curve` is the global
`S_SoundCurve` table of the Custom type, whose C `int` cast of a
non-negative index is truncation. -/
noncomputable def GetRolloff (curve : List ℝ) : Option (FRolloffInfo ℝ) → ℝ → ℝ
  | none, _ => 0
  | some r, distance =>
    if distance ≤ r.MinDistance then 1
    else if r.RolloffType = .log then
      r.MinDistance / (r.MinDistance + r.RolloffFactor * (distance - r.MinDistance))
    else if r.MaxDistance ≤ distance then 0
    else midRolloff curve r distance

/-! ## Serializer (src/serializer.cpp) -/

/-- Modelled from the spec: `utf8_encode` lives in utf8.cpp, which is not
under src/; the spec states that bytes ≥ 128 are expanded to two-byte
sequences using UTF-8 encoding of the byte value.  Standard UTF-8
encoding of a code point, restricted to the scalar ranges the encoder
distinguishes. -/
def utf8_encode (ch : Nat) : List Nat :=
  if ch < 0x80 then [ch]
  else if ch < 0x800 then [0xC0 + ch / 64, 0x80 + ch % 64]
  else if ch < 0x10000 then [0xE0 + ch / 4096, 0x80 + ch / 64 % 64, 0x80 + ch % 64]
  else [0xF0 + ch / 262144, 0x80 + ch / 4096 % 64, 0x80 + ch / 64 % 64, 0x80 + ch % 64]

/-- Modelled from the spec: `utf8_decode` lives in utf8.cpp, which is not
under src/; the spec says the inverse reads back any code point ≤ 255 to
its original byte and that larger code points cannot originate from the
writer.  Returns the decoded code point (−1 on malformed input) and the
number of bytes consumed (at least 1, as the caller always advances). -/
def utf8_decode : List Nat → Int × Nat
  | [] => (-1, 1)
  | b :: rest =>
    if b < 0x80 then ((b : Int), 1)
    else if b < 0xC0 then (-1, 1)
    else if b < 0xE0 then
      match rest with
      | b2 :: _ =>
        if 0x80 ≤ b2 ∧ b2 < 0xC0 then (((b - 0xC0) * 64 + (b2 - 0x80) : Nat), 2)
        else (-1, 1)
      | [] => (-1, 1)
    else if b < 0xF0 then
      match rest with
      | b2 :: b3 :: _ =>
        if (0x80 ≤ b2 ∧ b2 < 0xC0) ∧ (0x80 ≤ b3 ∧ b3 < 0xC0) then
          (((b - 0xE0) * 4096 + (b2 - 0x80) * 64 + (b3 - 0x80) : Nat), 3)
        else (-1, 1)
      | _ => (-1, 1)
    else if b < 0xF8 then
      match rest with
      | b2 :: b3 :: b4 :: _ =>
        if (0x80 ≤ b2 ∧ b2 < 0xC0) ∧ (0x80 ≤ b3 ∧ b3 < 0xC0) ∧ (0x80 ≤ b4 ∧ b4 < 0xC0) then
          (((b - 0xF0) * 262144 + (b2 - 0x80) * 4096 + (b3 - 0x80) * 64 + (b4 - 0x80) : Nat), 4)
        else (-1, 1)
      | _ => (-1, 1)
    else (-1, 1)

/-- `StringToUnicode` (serializer.cpp:75), default size: the input is the
content bytes of a NUL-terminated C string (so each byte is non-zero;
the two source loops stop at the terminator).  The first loop counts
with `ch = *c++ & 255`; a pure-ASCII string is returned unchanged,
otherwise every byte is UTF-8 encoded. -/
def StringToUnicode (s : List Nat) : List Nat :=
  if s.all (fun b => b % 256 < 128) then s
  else s.flatMap (fun b => utf8_encode (b % 256))

/-- The decode loop of `UnicodeToString` (serializer.cpp:103), with fuel
(one output byte is produced per step and at least one input byte is
consumed, so fuel = input length runs the loop to the terminator). -/
def UnicodeToStringAux : Nat → List Nat → List Nat
  | 0, _ => []
  | _, [] => []
  | fuel + 1, b :: rest =>
    let d := utf8_decode (b :: rest)
    let c := if d.1 < 0 ∨ 255 < d.1 then 63 else d.1.toNat
    c :: UnicodeToStringAux fuel ((b :: rest).drop d.2)

/-- `UnicodeToString` (serializer.cpp:103): decode each code point, map
anything outside 0..255 to a question mark byte. -/
def UnicodeToString (l : List Nat) : List Nat :=
  UnicodeToStringAux l.length l

/-- A typed scalar JSON value, covering the two `Serialize` overloads the
claims cite (bool, `int32_t`). -/
inductive JVal where
  | jBool (b : Bool)
  | jInt (n : Int)
deriving DecidableEq, Repr

/-- A written JSON object is the ordered list of its members; rapidjson's
`FindMember` (used by `FReader::FindKey`, serializer.cpp:324) returns
the first member carrying the key. -/
def findKey (obj : List (String × JVal)) (key : String) : Option JVal :=
  (obj.find? (fun kv => kv.1 = key)).map (fun kv => kv.2)

/-- Write side of `Serialize(..., bool &, bool *)` (serializer.cpp:1103):
emit `key` + value unless inside an object with a supplied default equal
to the value. -/
def serializeBoolWrite (inObject : Bool) (key : String) (value : Bool)
    (defval : Option Bool) : List (String × JVal) :=
  if ¬ inObject ∨ defval = none ∨ some value ≠ defval then [(key, .jBool value)] else []

/-- Read side of `Serialize(..., bool &, bool *)`: absent key leaves the
destination unchanged; a present non-bool records one recoverable error
and leaves the destination unchanged.  Returns (destination, errors). -/
def serializeBoolRead (obj : List (String × JVal)) (key : String) (value : Bool) :
    Bool × Nat :=
  match findKey obj key with
  | none => (value, 0)
  | some (.jBool b) => (b, 0)
  | some _ => (value, 1)

/-- Write side of `Serialize(..., int32_t &, int32_t *)`
(serializer.cpp:1212), same elision rule. -/
def serializeIntWrite (inObject : Bool) (key : String) (value : Int)
    (defval : Option Int) : List (String × JVal) :=
  if ¬ inObject ∨ defval = none ∨ some value ≠ defval then [(key, .jInt value)] else []

/-- Read side of `Serialize(..., int32_t &, int32_t *)`. -/
def serializeIntRead (obj : List (String × JVal)) (key : String) (value : Int) :
    Int × Nat :=
  match findKey obj key with
  | none => (value, 0)
  | some (.jInt n) => (n, 0)
  | some _ => (value, 1)

/-- One scalar `Serialize` call with its default supplied, as in the
round-trip claim. -/
inductive ScalarCall where
  | cBool (key : String) (value defval : Bool)
  | cInt (key : String) (value defval : Int)
deriving DecidableEq, Repr

/-- The key of a call. -/
def ScalarCall.key : ScalarCall → String
  | .cBool k _ _ => k
  | .cInt k _ _ => k

/-- Whether the call's value equals its supplied default. -/
def ScalarCall.isDefault : ScalarCall → Bool
  | .cBool _ v d => v = d
  | .cInt _ v d => v = d

/-- Run a sequence of scalar writes inside one object (each call appends
the members its overload emits). -/
def writeScalarSeq : List ScalarCall → List (String × JVal)
  | [] => []
  | .cBool k v d :: rest => serializeBoolWrite true k v (some d) ++ writeScalarSeq rest
  | .cInt k v d :: rest => serializeIntWrite true k v (some d) ++ writeScalarSeq rest

/-- Reading one call back from `obj` with a default-initialized
destination reproduces the originally written value. -/
def ScalarCall.readsBack (obj : List (String × JVal)) : ScalarCall → Prop
  | .cBool k v d => (serializeBoolRead obj k d).1 = v
  | .cInt k v d => (serializeIntRead obj k d).1 = v

instance (obj : List (String × JVal)) (c : ScalarCall) : Decidable (c.readsBack obj) := by
  cases c <;> simp only [ScalarCall.readsBack] <;> infer_instance

/-- Whether some active channel of this source occupies emitter slot `c`
(the plain reading of `IsChannelUsed` without the `seen` cache). -/
def slotUsed (s : EngineState) (sourcetype : SourceKind) (actor : Option Nat)
    (c : Nat) : Bool :=
  s.Channels.any (fun chan =>
    chan.SourceType = sourcetype ∧ chan.Source = actor ∧ chan.EntChannel = c)

/-- A channel that `CheckSoundLimit` counts against the near limit:
non-evicted, carrying the limited sound, and within `limit_range`
squared distance of the new sound's position (the channel's origin
obtained through the client's `CalcPosVel`, as in the source loop). -/
def inRangeMatch (env : Env) (sfxId : Nat) (pos : FVec3) (limit_range : ℚ)
    (chan : FSoundChan) : Bool :=
  ¬ chan.ChanFlags.evicted ∧ chan.SoundID = sfxId ∧
    distSq ((env.calcPosVel chan.SourceType chan.Source (some chan.Point)
      chan.EntChannel chan.ChanFlags).1) pos ≤ limit_range

/-- A channel that triggers the restart exemption of `CheckSoundLimit`
(`return false`): non-evicted, carrying the limited sound, with the same
`(source_type, actor, channel)` tuple as the new start, the actor
non-null. -/
def restartExempt (sfxId : Nat) (sourcetype : SourceKind) (actor : Option Nat)
    (channel : Nat) (chan : FSoundChan) : Bool :=
  ¬ chan.ChanFlags.evicted ∧ chan.SoundID = sfxId ∧ actor ≠ none ∧
    chan.EntChannel = channel ∧ chan.SourceType = sourcetype ∧ chan.Source = actor

/-- The descending probe order `n, n-1, ..., 1` of the auto-slot loop
`for (channel = 7; channel > 0; --channel)`, as a list. -/
def descList : Nat → List Nat
  | 0 => []
  | n + 1 => (n + 1) :: descList n

/-! ### Concrete fixtures used by scenario theorems and witnesses -/

/-- Environment for the concrete scenarios: sound enabled, not paused, a
real backend that accepts every start, all positions at the origin and
valid, every lump large and decodable. -/
def scnEnv : Env where
  nosfx := false
  nosound := false
  SoundPaused := false
  isNull := false
  sfx_empty := -2
  listenerObject := none
  calcPosVel := fun _ _ _ _ _ => (⟨0, 0, 0⟩, ⟨0, 0, 0⟩)
  validatePosVel := fun _ _ _ _ => true
  lumpSize := fun _ => 100
  decodeOk := fun _ => true
  decodeOk3d := fun _ => true
  backendOk := true
  time := 42

/-- A plain unlinked, unlimited, non-singular sound. -/
def scnSfx : SfxInfo where
  lumpnum := 5
  Volume := 1
  Attenuation := 1
  PitchMask := 0
  NearLimit := 0
  LimitRange := 65536
  bRandomHeader := false
  bSingular := false
  bLoadRAW := false
  link := none
  Rolloff := ⟨.doom, 1, 100, 0⟩
  data := false
  data3d := false

/-- Engine state with the null sound at index 0 and `scnSfx` at index 1,
no channels. -/
def scnState : EngineState where
  S_sfx := [default, scnSfx]
  S_rnd := []
  S_Rolloff := ⟨.doom, 200, 1200, 0⟩
  Channels := []
  FreeChannels := []

/-- One slot-AUTO start of sound 1 on actor 1 (the repeated call of the
auto-slot scenario). -/
def scnStart (s : EngineState) : Option FSoundChan × EngineState :=
  StartSound scnEnv s .actor (some 1) (some ⟨0, 0, 0⟩) 0 1 1 1 none 0 []

/-- The engine state after `n` repetitions of `scnStart`. -/
def scnIter : Nat → EngineState
  | 0 => scnState
  | n + 1 => (scnStart (scnIter n)).2

/-- The emitter slots handed out by the first `n` repeated AUTO starts
(`none` marks a refused start). -/
def scnSlots (n : Nat) : List (Option Nat) :=
  (List.range n).map (fun i => (scnStart (scnIter i)).1.map (fun c => c.EntChannel))

/-- A looping channel with a live backend voice, for witnesses. -/
def wChLoop : FSoundChan :=
  { FSoundChan.zero with SoundID := 1, OrgID := 1, SourceType := .noSource,
                         SysChannel := some 1,
                         ChanFlags := { ChanFlags.zero with loop := true } }

/-- A non-looping actor channel with a live backend voice. -/
def wChActor : FSoundChan :=
  { FSoundChan.zero with SoundID := 1, OrgID := 1, EntChannel := 4,
                         SourceType := .actor, Source := some 2, SysChannel := some 2 }

/-- Witness state: one looping listener channel and one actor channel. -/
def wSt : EngineState :=
  ⟨[default, scnSfx], [], ⟨.doom, 0, 0, 0⟩, [wChLoop, wChActor], []⟩

/-- A singular sound for the C1 witness. -/
def wSingSfx : SfxInfo :=
  { scnSfx with bSingular := true }

/-- An active channel already carrying sound 1. -/
def wSingChan : FSoundChan :=
  { FSoundChan.zero with SoundID := 1, OrgID := 1, SourceType := .actor,
                         Source := some 9, SysChannel := some 1 }

/-- Witness state for the singular check: the singular sound 1 is
already playing on a channel (`OrgID = 1`). -/
def wSingSt : EngineState where
  S_sfx := [default, wSingSfx]
  S_rnd := []
  S_Rolloff := ⟨.doom, 200, 1200, 0⟩
  Channels := [wSingChan]
  FreeChannels := []

/-- A channel as parked by `ChannelEnded`: `Evicted` set, voice handle
cleared. -/
def parkedChan (c : FSoundChan) : FSoundChan :=
  { c with ChanFlags := { c.ChanFlags with evicted := true }, SysChannel := none }

/-- Near-limited (limit 1) variant of the scenario sound, for the
limiting counterexample. -/
def cxSfx : SfxInfo :=
  { scnSfx with NearLimit := 1 }

/-- A non-evicted in-range channel playing sound 1 from another actor. -/
def cxChOther : FSoundChan :=
  { FSoundChan.zero with SoundID := 1, OrgID := 1, EntChannel := 5,
                         SourceType := .actor, Source := some 7, SysChannel := some 1 }

/-- A channel with the same `(source_type, actor, channel)` tuple as the
new start of the limiting counterexample. -/
def cxChSame : FSoundChan :=
  { FSoundChan.zero with SoundID := 1, OrgID := 1, EntChannel := 3,
                         SourceType := .actor, Source := some 5, SysChannel := some 2 }

/-- Counterexample state for the near-limit exemption: the restart
channel sits after the in-range match on the active list. -/
def cxSt : EngineState :=
  ⟨[default, cxSfx], [], ⟨.doom, 200, 1200, 0⟩, [cxChOther, cxChSame], []⟩

/-- The scenario sound after its first `LoadSound` (decoder handles
installed). -/
def scnSfxLoaded : SfxInfo :=
  { scnSfx with data := true, data3d := true }

/-- The channel value a successful scenario start leaves at the head of
the active list when it picks emitter slot `k`. -/
def scnCh (k : Nat) : FSoundChan where
  SoundID := 1
  OrgID := 1
  EntChannel := k
  ChanFlags := { ChanFlags.zero with is3d := true, justStarted := true }
  SourceType := .actor
  Source := some 1
  Point := ⟨0, 0, 0⟩
  Volume := 1
  Pitch := 128
  Priority := 0
  NearLimit := 0
  LimitRange := 65536
  DistanceScale := 1
  SysChannel := some 1
  StartTime := 0

/-- The scenario state after some successful starts: sound 1 loaded, one
scenario channel per occupied slot (most recent first). -/
def scnStateN (slots : List Nat) : EngineState where
  S_sfx := [default, scnSfxLoaded]
  S_rnd := []
  S_Rolloff := ⟨.doom, 200, 1200, 0⟩
  Channels := slots.map scnCh
  FreeChannels := []

/-! ## Theorems -/

/-- C3: `ChannelEnded` classifies a finished channel exactly as claimed:
Forgettable retires it; otherwise Loop or an already-set Evicted parks
it; otherwise backend position 0 parks it iff JustStarted is set and a
non-zero position parks it iff it is short of the sample length.
Parking sets the Evicted flag and clears `SysChannel` in place; retiring
removes the channel from the active list and returns a zeroed channel to
the free list. -/
theorem C3_channel_ended_classification (s : EngineState) (i pos len : Nat)
    (c : FSoundChan) (hc : s.Channels[i]? = some c) :
    (channelEndedEvicted c.ChanFlags pos len = true ↔
      (c.ChanFlags.forgettable = false ∧
        (c.ChanFlags.loop = true ∨ c.ChanFlags.evicted = true ∨
          (pos = 0 ∧ c.ChanFlags.justStarted = true) ∨ (pos ≠ 0 ∧ pos < len)))) ∧
    (channelEndedEvicted c.ChanFlags pos len = true →
      ChannelEndedAt s i pos len =
        { s with Channels := s.Channels.set i (parkedChan c) }) ∧
    (channelEndedEvicted c.ChanFlags pos len = false →
      ChannelEndedAt s i pos len =
        { s with Channels := s.Channels.eraseIdx i,
                 FreeChannels := FSoundChan.zero :: s.FreeChannels }) := by
  refine ⟨?_, ?_, ?_⟩
  · unfold channelEndedEvicted
    cases hf : c.ChanFlags.forgettable <;>
      cases hl : c.ChanFlags.loop <;>
        cases he : c.ChanFlags.evicted <;>
          cases hj : c.ChanFlags.justStarted <;>
            by_cases hp : pos = 0 <;>
              simp [hf, hl, he, hj, hp]
  · intro h
    simp only [ChannelEndedAt, hc, h, if_true, parkedChan]
  · intro h
    simp only [ChannelEndedAt, hc, h, Bool.false_eq_true, if_false, ReturnChannelAt]

/-- Witness for C3: the looping channel of `wSt` ends at backend
position 5; it is parked in place with `Evicted` set and the voice
handle cleared. -/
theorem C3_channel_ended_classification_witness :
    ChannelEndedAt wSt 0 5 10 =
      { wSt with Channels := wSt.Channels.set 0 (parkedChan wChLoop) } :=
  (C3_channel_ended_classification wSt 0 5 10 wChLoop (by rfl)).2.1 (by decide)

/-- C10: the one-argument `StopSound(c)` stops exactly the channels with
source type `SOURCE_None` (under the documented invariant that evicted
channels hold no backend voice, every such channel is retired, so the
remaining active list is the sublist of other-source channels, each
unchanged), and the integer argument has no effect on the result. -/
theorem C10_stop_sound_none (s : EngineState) (c1 c2 : Int)
    (hinv : ∀ c ∈ s.Channels, c.ChanFlags.evicted = true → c.SysChannel = none) :
    (StopSound1 s c1).Channels =
      s.Channels.filter (fun c => c.SourceType ≠ SourceKind.noSource) ∧
    StopSound1 s c1 = StopSound1 s c2 := by
  refine ⟨?_, rfl⟩
  have main : ∀ l : List FSoundChan,
      (∀ c ∈ l, c.ChanFlags.evicted = true → c.SysChannel = none) →
      (stopNoneAux l).1 = l.filter (fun c => c.SourceType ≠ SourceKind.noSource) := by
    intro l
    induction l with
    | nil => intro _; simp [stopNoneAux]
    | cons c rest ih =>
      intro h
      have hrest := fun x hx => h x (List.mem_cons_of_mem c hx)
      by_cases hsrc : c.SourceType = SourceKind.noSource
      · have hres : stopChannelResult c 0 0 = none := by
          unfold stopChannelResult
          by_cases hsys : c.SysChannel = none
          · simp [hsys]
          · have hev : c.ChanFlags.evicted = false := by
              cases he : c.ChanFlags.evicted
              · rfl
              · exact absurd (h c (List.mem_cons_self c rest) he) hsys
            simp [hsys, hev, channelEndedEvicted]
        simp [stopNoneAux, hsrc, hres, ih hrest]
      · simp [stopNoneAux, hsrc, ih hrest]
  unfold StopSound1
  exact main s.Channels hinv

/-- Witness for C10: stopping on `wSt` (one listener channel, one actor
channel) retires the listener channel, keeps the actor channel, and two
different arguments give the same result. -/
theorem C10_stop_sound_none_witness :
    (StopSound1 wSt 5).Channels =
      wSt.Channels.filter (fun c => c.SourceType ≠ SourceKind.noSource) ∧
    StopSound1 wSt 5 = StopSound1 wSt (-3) :=
  C10_stop_sound_none wSt 5 (-3) (by decide)

theorem utf8_encode_ne_nil (ch : Nat) : utf8_encode ch ≠ [] := by
  unfold utf8_encode
  split_ifs <;> simp

theorem flatMap_encode_length_ge (s : List Nat) :
    s.length ≤ (s.flatMap (fun b => utf8_encode (b % 256))).length := by
  induction s with
  | nil => simp
  | cons b rest ih =>
    rw [List.flatMap_cons, List.length_append]
    have h1 : 1 ≤ (utf8_encode (b % 256)).length := by
      cases he : utf8_encode (b % 256) with
      | nil => exact absurd he (utf8_encode_ne_nil _)
      | cons x xs => simp
    simp only [List.length_cons]
    omega

theorem flatMap_encode_ascii (s : List Nat) (h : ∀ b ∈ s, b < 256)
    (ha : ∀ b ∈ s, b % 256 < 128) :
    s.flatMap (fun b => utf8_encode (b % 256)) = s := by
  induction s with
  | nil => simp
  | cons b rest ih =>
    have hb : b < 256 := h b (List.mem_cons_self b rest)
    have hab : b % 256 < 128 := ha b (List.mem_cons_self b rest)
    rw [List.flatMap_cons]
    have henc : utf8_encode (b % 256) = [b] := by
      rw [utf8_encode, if_pos hab, Nat.mod_eq_of_lt hb]
    rw [henc, ih (fun x hx => h x (List.mem_cons_of_mem b hx))
      (fun x hx => ha x (List.mem_cons_of_mem b hx))]
    rfl

theorem decode_flatMap_encode (s : List Nat) :
    ∀ fuel, s.length ≤ fuel → (∀ b ∈ s, 0 < b ∧ b < 256) →
    UnicodeToStringAux fuel (s.flatMap (fun b => utf8_encode (b % 256))) = s := by
  induction s with
  | nil => intro fuel _ _; cases fuel <;> simp [UnicodeToStringAux]
  | cons b rest ih =>
    intro fuel hf hb
    obtain ⟨f, rfl⟩ : ∃ f, fuel = f + 1 := by
      cases fuel with
      | zero => simp at hf
      | succ f => exact ⟨f, rfl⟩
    have hb0 := hb b (List.mem_cons_self b rest)
    have hmod : b % 256 = b := Nat.mod_eq_of_lt hb0.2
    have hrest := fun x hx => hb x (List.mem_cons_of_mem b hx)
    have ihf := ih f (by simpa using Nat.le_of_succ_le_succ hf) hrest
    by_cases hlt : b < 128
    · have henc : utf8_encode (b % 256) = [b] := by
        rw [utf8_encode, if_pos (by omega : b % 256 < 128), hmod]
      rw [List.flatMap_cons, henc, List.singleton_append]
      simp only [UnicodeToStringAux]
      have hdec : utf8_decode (b :: rest.flatMap (fun x => utf8_encode (x % 256))) =
          ((b : Int), 1) := by
        simp only [utf8_decode]
        rw [if_pos (by omega : b < 0x80)]
      rw [hdec]
      have hco : ¬ (((b : Nat) : Int) < 0 ∨ (255 : Int) < ((b : Nat) : Int)) := by omega
      simp only [hco, if_false, Int.toNat_natCast, List.drop_succ_cons, List.drop_zero]
      exact congrArg (b :: ·) ihf
    · have henc : utf8_encode (b % 256) = [0xC0 + b / 64, 0x80 + b % 64] := by
        rw [utf8_encode, hmod, if_neg (by omega), if_pos (by omega : b < 0x800)]
      rw [List.flatMap_cons, henc, List.cons_append, List.cons_append, List.nil_append]
      simp only [UnicodeToStringAux]
      have h1 : ¬ (0xC0 + b / 64 < 0x80) := by omega
      have h2 : ¬ (0xC0 + b / 64 < 0xC0) := by omega
      have h3 : 0xC0 + b / 64 < 0xE0 := by omega
      have h4 : 0x80 ≤ 0x80 + b % 64 := by omega
      have h5 : 0x80 + b % 64 < 0xC0 := by omega
      have hval : (0xC0 + b / 64 - 0xC0) * 64 + (0x80 + b % 64 - 0x80) = b := by omega
      have hdec : utf8_decode ((0xC0 + b / 64) :: (0x80 + b % 64) ::
          rest.flatMap (fun x => utf8_encode (x % 256))) = ((b : Int), 2) := by
        simp only [utf8_decode]
        rw [if_neg h1, if_neg h2, if_pos h3, if_pos ⟨h4, h5⟩, hval]
      rw [hdec]
      have hco : ¬ (((b : Nat) : Int) < 0 ∨ (255 : Int) < ((b : Nat) : Int)) := by omega
      simp only [hco, if_false, Int.toNat_natCast, List.drop_succ_cons, List.drop_zero]
      exact congrArg (b :: ·) ihf

/-- C9: for every byte sequence (the content bytes of a C string, hence
non-zero, below 256), decoding the encoded form yields the original
sequence: `UnicodeToString (StringToUnicode s) = s`. -/
theorem C9_string_encode_roundtrip (s : List Nat) (h : ∀ b ∈ s, 0 < b ∧ b < 256) :
    UnicodeToString (StringToUnicode s) = s := by
  unfold StringToUnicode
  by_cases ha : s.all (fun b => b % 256 < 128)
  · rw [if_pos ha]
    have ha2 : ∀ b ∈ s, b % 256 < 128 := by
      intro b hbs
      have := List.all_eq_true.mp ha b hbs
      simpa using this
    have hflat := flatMap_encode_ascii s (fun b hbs => (h b hbs).2) ha2
    have hmain := decode_flatMap_encode s s.length le_rfl h
    rw [hflat] at hmain
    exact hmain
  · rw [if_neg ha]
    unfold UnicodeToString
    exact decode_flatMap_encode s _ (flatMap_encode_length_ge s) h

/-- Witness for C9: a mixed ASCII and high-byte string round-trips. -/
theorem C9_string_encode_roundtrip_witness :
    UnicodeToString (StringToUnicode [72, 200, 255, 1]) = [72, 200, 255, 1] :=
  C9_string_encode_roundtrip [72, 200, 255, 1] (by decide)

theorem findKey_cons (k k' : String) (v : JVal) (t : List (String × JVal)) :
    findKey ((k, v) :: t) k' = if k = k' then some v else findKey t k' := by
  by_cases h : k = k' <;> simp [findKey, List.find?_cons, h]

theorem boolWrite_skip (k : String) (v : Bool) (d : Option Bool) (k' : String)
    (t : List (String × JVal)) (h : k ≠ k') :
    findKey (serializeBoolWrite true k v d ++ t) k' = findKey t k' := by
  unfold serializeBoolWrite
  split_ifs
  · rw [List.singleton_append, findKey_cons, if_neg h]
  · rw [List.nil_append]

theorem intWrite_skip (k : String) (v : Int) (d : Option Int) (k' : String)
    (t : List (String × JVal)) (h : k ≠ k') :
    findKey (serializeIntWrite true k v d ++ t) k' = findKey t k' := by
  unfold serializeIntWrite
  split_ifs
  · rw [List.singleton_append, findKey_cons, if_neg h]
  · rw [List.nil_append]

theorem writeScalarSeq_findKey_none (calls : List ScalarCall) (k : String)
    (h : ∀ c ∈ calls, c.key ≠ k) : findKey (writeScalarSeq calls) k = none := by
  induction calls with
  | nil => simp [writeScalarSeq, findKey]
  | cons c rest ih =>
    have hk := h c (List.mem_cons_self c rest)
    have hrest := ih (fun x hx => h x (List.mem_cons_of_mem c hx))
    cases c with
    | cBool k0 v d =>
      rw [writeScalarSeq, boolWrite_skip k0 v (some d) k _ (by simpa [ScalarCall.key] using hk)]
      exact hrest
    | cInt k0 v d =>
      rw [writeScalarSeq, intWrite_skip k0 v (some d) k _ (by simpa [ScalarCall.key] using hk)]
      exact hrest

/-- C8 counterexample: two int writes under the same key, both differing
from their defaults, produce two members with that key; reading the
second value back returns the first write's value, so the round-trip
claim fails for call sequences that repeat a key. -/
theorem C8_counterexample :
    writeScalarSeq [ScalarCall.cInt "k" 1 0, ScalarCall.cInt "k" 2 0] =
      [("k", JVal.jInt 1), ("k", JVal.jInt 2)] ∧
    ¬ (ScalarCall.cInt "k" 2 0).readsBack
        (writeScalarSeq [ScalarCall.cInt "k" 1 0, ScalarCall.cInt "k" 2 0]) := by
  constructor
  · rfl
  · decide

/-- C8 (amended): for any sequence of supported scalar Serialize calls
inside an object with defaults supplied and pairwise distinct keys,
every field whose value equals its default is absent from the written
output, and reading the output back with the same keys and
default-initialized destinations reproduces the original values
(an absent key leaves the destination unchanged). -/
theorem C8_scalar_roundtrip (calls : List ScalarCall)
    (hnd : (calls.map ScalarCall.key).Nodup) :
    (∀ c ∈ calls, c.isDefault = true → findKey (writeScalarSeq calls) c.key = none) ∧
    (∀ c ∈ calls, c.readsBack (writeScalarSeq calls)) := by
  induction calls with
  | nil => simp
  | cons c0 rest ih =>
    rw [List.map_cons, List.nodup_cons] at hnd
    obtain ⟨hk0, hndr⟩ := hnd
    obtain ⟨helide, hread⟩ := ih hndr
    have hkey0 : ∀ c ∈ rest, c.key ≠ c0.key := by
      intro c hc he
      exact hk0 (he ▸ List.mem_map_of_mem ScalarCall.key hc)
    have hrestk : ∀ x ∈ rest, x.key ≠ c0.key := hkey0
    have hseq : ∀ k, k ≠ c0.key → findKey (writeScalarSeq (c0 :: rest)) k =
        findKey (writeScalarSeq rest) k := by
      intro k hkne
      cases c0 with
      | cBool ka v d =>
        rw [writeScalarSeq]
        exact boolWrite_skip ka v (some d) k _
          (by simp only [ScalarCall.key] at hkne; exact fun h => hkne h.symm)
      | cInt ka v d =>
        rw [writeScalarSeq]
        exact intWrite_skip ka v (some d) k _
          (by simp only [ScalarCall.key] at hkne; exact fun h => hkne h.symm)
    constructor
    · intro c hc hdef
      rcases List.mem_cons.mp hc with rfl | hcr
      · cases c with
        | cBool ka v d =>
          simp only [ScalarCall.isDefault, decide_eq_true_eq] at hdef
          rw [writeScalarSeq]
          show findKey (serializeBoolWrite true ka v (some d) ++ writeScalarSeq rest) ka = none
          rw [serializeBoolWrite, if_neg (by simp [hdef]), List.nil_append]
          exact writeScalarSeq_findKey_none rest ka
            (by intro x hx; simpa [ScalarCall.key] using hrestk x hx)
        | cInt ka v d =>
          simp only [ScalarCall.isDefault, decide_eq_true_eq] at hdef
          rw [writeScalarSeq]
          show findKey (serializeIntWrite true ka v (some d) ++ writeScalarSeq rest) ka = none
          rw [serializeIntWrite, if_neg (by simp [hdef]), List.nil_append]
          exact writeScalarSeq_findKey_none rest ka
            (by intro x hx; simpa [ScalarCall.key] using hrestk x hx)
      · rw [hseq c.key (hkey0 c hcr)]
        exact helide c hcr hdef
    · intro c hc
      rcases List.mem_cons.mp hc with rfl | hcr
      · cases c with
        | cBool ka v d =>
          show (serializeBoolRead (writeScalarSeq (ScalarCall.cBool ka v d :: rest)) ka d).1 = v
          rw [writeScalarSeq]
          by_cases hvd : v = d
          · rw [serializeBoolWrite, if_neg (by simp [hvd]), List.nil_append]
            rw [serializeBoolRead, writeScalarSeq_findKey_none rest ka
              (by intro x hx; simpa [ScalarCall.key] using hrestk x hx)]
            exact hvd.symm
          · rw [serializeBoolWrite, if_pos (by simp [hvd]), List.singleton_append]
            rw [serializeBoolRead, findKey_cons, if_pos rfl]
        | cInt ka v d =>
          show (serializeIntRead (writeScalarSeq (ScalarCall.cInt ka v d :: rest)) ka d).1 = v
          rw [writeScalarSeq]
          by_cases hvd : v = d
          · rw [serializeIntWrite, if_neg (by simp [hvd]), List.nil_append]
            rw [serializeIntRead, writeScalarSeq_findKey_none rest ka
              (by intro x hx; simpa [ScalarCall.key] using hrestk x hx)]
            exact hvd.symm
          · rw [serializeIntWrite, if_pos (by simp [hvd]), List.singleton_append]
            rw [serializeIntRead, findKey_cons, if_pos rfl]
      · have hW := hseq c.key (hkey0 c hcr)
        have hih := hread c hcr
        cases c with
        | cBool ka v d =>
          have hW2 : findKey (writeScalarSeq (c0 :: rest)) ka =
              findKey (writeScalarSeq rest) ka := hW
          show (serializeBoolRead (writeScalarSeq (c0 :: rest)) ka d).1 = v
          rw [serializeBoolRead, hW2]
          exact hih
        | cInt ka v d =>
          have hW2 : findKey (writeScalarSeq (c0 :: rest)) ka =
              findKey (writeScalarSeq rest) ka := hW
          show (serializeIntRead (writeScalarSeq (c0 :: rest)) ka d).1 = v
          rw [serializeIntRead, hW2]
          exact hih

/-- Witness for C8: two distinct-key calls, one elided as equal to its
default, both reading back their original values. -/
theorem C8_scalar_roundtrip_witness :
    (∀ c ∈ [ScalarCall.cBool "a" true true, ScalarCall.cInt "b" 3 0],
      c.isDefault = true →
        findKey (writeScalarSeq [ScalarCall.cBool "a" true true,
          ScalarCall.cInt "b" 3 0]) c.key = none) ∧
    (∀ c ∈ [ScalarCall.cBool "a" true true, ScalarCall.cInt "b" 3 0],
      c.readsBack (writeScalarSeq [ScalarCall.cBool "a" true true,
        ScalarCall.cInt "b" 3 0])) :=
  C8_scalar_roundtrip [ScalarCall.cBool "a" true true, ScalarCall.cInt "b" 3 0]
    (by decide)

/-- C6: `GetRolloff` case analysis, exactly the ordered cases of the
claim: at or below `min_distance` the factor is 1; past it, Logarithmic
rolloff returns `min / (min + factor * (d - min))` with no max-distance
cutoff; the other types return 0 at or beyond `max_distance`; strictly
between the bounds, with `fraction = (max - d) / (max - min)`, Linear
returns the fraction itself, Custom (with a non-empty sound curve)
samples `S_SoundCurve[size * (1 - fraction)] / 127`, and Doom (the
default) returns `(10 ^ fraction - 1) / 9`. -/
theorem C6_get_rolloff_cases (curve : List ℝ) (r : FRolloffInfo ℝ) (d : ℝ) :
    (d ≤ r.MinDistance → GetRolloff curve (some r) d = 1) ∧
    (r.MinDistance < d → r.RolloffType = .log →
      GetRolloff curve (some r) d =
        r.MinDistance / (r.MinDistance + r.RolloffFactor * (d - r.MinDistance))) ∧
    (r.MinDistance < d → r.RolloffType ≠ .log → r.MaxDistance ≤ d →
      GetRolloff curve (some r) d = 0) ∧
    (r.MinDistance < d → d < r.MaxDistance → r.RolloffType = .linear →
      GetRolloff curve (some r) d =
        (r.MaxDistance - d) / (r.MaxDistance - r.MinDistance)) ∧
    (r.MinDistance < d → d < r.MaxDistance → r.RolloffType = .custom → curve ≠ [] →
      GetRolloff curve (some r) d =
        curve.getD (realTrunc ((curve.length : ℝ) *
          (1 - (r.MaxDistance - d) / (r.MaxDistance - r.MinDistance)))).toNat 0 / 127) ∧
    (r.MinDistance < d → d < r.MaxDistance → r.RolloffType = .doom →
      GetRolloff curve (some r) d =
        ((10 : ℝ) ^ ((r.MaxDistance - d) / (r.MaxDistance - r.MinDistance)) - 1) / 9) := by
  refine ⟨?_, ?_, ?_, ?_, ?_, ?_⟩
  · intro h
    rw [GetRolloff, if_pos h]
  · intro h hlog
    rw [GetRolloff, if_neg (not_le.mpr h), if_pos hlog]
  · intro h hlog hmax
    rw [GetRolloff, if_neg (not_le.mpr h), if_neg hlog, if_pos hmax]
  · intro h hmax hlin
    rw [GetRolloff, if_neg (not_le.mpr h), if_neg (by rw [hlin]; decide),
      if_neg (not_le.mpr hmax), midRolloff, if_pos hlin]
  · intro h hmax hcus hne
    rw [GetRolloff, if_neg (not_le.mpr h), if_neg (by rw [hcus]; decide),
      if_neg (not_le.mpr hmax), midRolloff, if_neg (by rw [hcus]; decide),
      if_pos ⟨hcus, List.length_pos.mpr hne⟩]
  · intro h hmax hdoom
    rw [GetRolloff, if_neg (not_le.mpr h), if_neg (by rw [hdoom]; decide),
      if_neg (not_le.mpr hmax), midRolloff, if_neg (by rw [hdoom]; decide),
      if_neg (by rw [hdoom]; simp)]

/-- Witness for C6: the Linear case at min 1, max 3, distance 2. -/
theorem C6_get_rolloff_cases_witness :
    (1 : ℝ) < 2 ∧ (2 : ℝ) < 3 ∧
    GetRolloff [] (some ⟨RolloffKind.linear, 1, 3, 0⟩) 2 = (3 - 2) / (3 - 1) :=
  ⟨by norm_num, by norm_num,
    (C6_get_rolloff_cases [] ⟨RolloffKind.linear, 1, 3, 0⟩ 2).2.2.2.1
      (by norm_num) (by norm_num) rfl⟩

theorem getRolloff_of_le_min (curve : List ℝ) (r : FRolloffInfo ℝ) (d : ℝ)
    (h : d ≤ r.MinDistance) : GetRolloff curve (some r) d = 1 := by
  rw [GetRolloff, if_pos h]

theorem getRolloff_log_formula (curve : List ℝ) (r : FRolloffInfo ℝ) (d : ℝ)
    (h : r.MinDistance < d) (hl : r.RolloffType = .log) :
    GetRolloff curve (some r) d =
      r.MinDistance / (r.MinDistance + r.RolloffFactor * (d - r.MinDistance)) := by
  rw [GetRolloff, if_neg (not_le.mpr h), if_pos hl]

theorem getRolloff_of_max_le (curve : List ℝ) (r : FRolloffInfo ℝ) (d : ℝ)
    (h : r.MinDistance < d) (hl : r.RolloffType ≠ .log) (h2 : r.MaxDistance ≤ d) :
    GetRolloff curve (some r) d = 0 := by
  rw [GetRolloff, if_neg (not_le.mpr h), if_neg hl, if_pos h2]

theorem getRolloff_mid_formula (curve : List ℝ) (r : FRolloffInfo ℝ) (d : ℝ)
    (h : r.MinDistance < d) (hl : r.RolloffType ≠ .log) (h2 : d < r.MaxDistance) :
    GetRolloff curve (some r) d = midRolloff curve r d := by
  rw [GetRolloff, if_neg (not_le.mpr h), if_neg hl, if_neg (not_le.mpr h2)]

/-- The Custom-curve index is in range in the strict mid-region. -/
theorem customIdx_lt (n : ℕ) (hn : 0 < n) (v : ℝ) (hv0 : 0 < v) (hv1 : v < 1) :
    (realTrunc ((n : ℝ) * (1 - v))).toNat < n := by
  have hx0 : (0 : ℝ) ≤ (n : ℝ) * (1 - v) := by
    apply mul_nonneg (by positivity)
    linarith
  have hxn : (n : ℝ) * (1 - v) < n := by
    have hnp : (0 : ℝ) < (n : ℝ) := by exact_mod_cast hn
    nlinarith
  rw [realTrunc, if_pos hx0]
  have hfl : ⌊(n : ℝ) * (1 - v)⌋ < (n : ℤ) := by
    rw [Int.floor_lt]
    exact_mod_cast hxn
  omega

theorem midRolloff_le_one (curve : List ℝ) (r : FRolloffInfo ℝ) (d : ℝ)
    (hcb : ∀ x ∈ curve, 0 ≤ x ∧ x ≤ 127)
    (h1 : r.MinDistance < d) (h2 : d < r.MaxDistance) :
    midRolloff curve r d ≤ 1 := by
  have hmm : r.MinDistance < r.MaxDistance := lt_trans h1 h2
  have hden : (0 : ℝ) < r.MaxDistance - r.MinDistance := by linarith
  have hv0 : 0 < (r.MaxDistance - d) / (r.MaxDistance - r.MinDistance) :=
    div_pos (by linarith) hden
  have hv1 : (r.MaxDistance - d) / (r.MaxDistance - r.MinDistance) < 1 := by
    rw [div_lt_one hden]; linarith
  rw [midRolloff]
  split_ifs with hlin hcus
  · linarith
  · have hidx := customIdx_lt curve.length hcus.2 _ hv0 hv1
    rw [List.getD_eq_getElem _ _ hidx]
    have hx := hcb _ (curve.getElem_mem hidx)
    rw [div_le_one (by norm_num : (0:ℝ) < 127)]
    exact hx.2
  · have hpow : (10 : ℝ) ^ ((r.MaxDistance - d) / (r.MaxDistance - r.MinDistance)) ≤
        (10 : ℝ) ^ (1 : ℝ) :=
      (Real.rpow_le_rpow_left_iff (by norm_num)).mpr (le_of_lt hv1)
    rw [Real.rpow_one] at hpow
    rw [div_le_one (by norm_num : (0:ℝ) < 9)]
    linarith

theorem midRolloff_nonneg (curve : List ℝ) (r : FRolloffInfo ℝ) (d : ℝ)
    (hcb : ∀ x ∈ curve, 0 ≤ x ∧ x ≤ 127)
    (h1 : r.MinDistance < d) (h2 : d < r.MaxDistance) :
    0 ≤ midRolloff curve r d := by
  have hden : (0 : ℝ) < r.MaxDistance - r.MinDistance := by linarith
  have hv0 : 0 < (r.MaxDistance - d) / (r.MaxDistance - r.MinDistance) :=
    div_pos (by linarith) hden
  rw [midRolloff]
  split_ifs with hlin hcus
  · linarith
  · apply div_nonneg _ (by norm_num : (0:ℝ) ≤ 127)
    by_cases hidx : (realTrunc ((curve.length : ℝ) *
        (1 - (r.MaxDistance - d) / (r.MaxDistance - r.MinDistance)))).toNat < curve.length
    · rw [List.getD_eq_getElem _ _ hidx]
      exact (hcb _ (curve.getElem_mem hidx)).1
    · rw [List.getD_eq_default _ _ (le_of_not_lt hidx)]
  · have hpow : (10 : ℝ) ^ (0 : ℝ) ≤
        (10 : ℝ) ^ ((r.MaxDistance - d) / (r.MaxDistance - r.MinDistance)) :=
      (Real.rpow_le_rpow_left_iff (by norm_num)).mpr (le_of_lt hv0)
    rw [Real.rpow_zero] at hpow
    apply div_nonneg _ (by norm_num : (0:ℝ) ≤ 9)
    linarith

theorem getRolloff_le_one (curve : List ℝ) (r : FRolloffInfo ℝ) (d : ℝ)
    (hmin : 0 ≤ r.MinDistance)
    (hfac : r.RolloffType = .log → 0 ≤ r.RolloffFactor)
    (hcb : ∀ x ∈ curve, 0 ≤ x ∧ x ≤ 127) :
    GetRolloff curve (some r) d ≤ 1 := by
  by_cases h1 : d ≤ r.MinDistance
  · rw [getRolloff_of_le_min curve r d h1]
  · have h1lt := not_le.mp h1
    by_cases hlog : r.RolloffType = .log
    · rw [getRolloff_log_formula curve r d h1lt hlog]
      have hf := hfac hlog
      apply div_le_one_of_le
      · nlinarith
      · nlinarith
    · by_cases h2 : r.MaxDistance ≤ d
      · rw [getRolloff_of_max_le curve r d h1lt hlog h2]; norm_num
      · rw [getRolloff_mid_formula curve r d h1lt hlog (not_le.mp h2)]
        exact midRolloff_le_one curve r d hcb h1lt (not_le.mp h2)

theorem getRolloff_nonneg (curve : List ℝ) (r : FRolloffInfo ℝ) (d : ℝ)
    (hmin : 0 ≤ r.MinDistance)
    (hfac : r.RolloffType = .log → 0 ≤ r.RolloffFactor)
    (hcb : ∀ x ∈ curve, 0 ≤ x ∧ x ≤ 127) :
    0 ≤ GetRolloff curve (some r) d := by
  by_cases h1 : d ≤ r.MinDistance
  · rw [getRolloff_of_le_min curve r d h1]; norm_num
  · have h1lt := not_le.mp h1
    by_cases hlog : r.RolloffType = .log
    · rw [getRolloff_log_formula curve r d h1lt hlog]
      have hf := hfac hlog
      apply div_nonneg hmin
      nlinarith
    · by_cases h2 : r.MaxDistance ≤ d
      · rw [getRolloff_of_max_le curve r d h1lt hlog h2]
      · rw [getRolloff_mid_formula curve r d h1lt hlog (not_le.mp h2)]
        exact midRolloff_nonneg curve r d hcb h1lt (not_le.mp h2)

theorem midRolloff_antitone (curve : List ℝ) (r : FRolloffInfo ℝ)
    (hcurve : ∀ i j, i ≤ j → j < curve.length → curve.getD j 0 ≤ curve.getD i 0)
    (d1 d2 : ℝ) (h1 : r.MinDistance < d1) (h12 : d1 ≤ d2) (h2 : d2 < r.MaxDistance) :
    midRolloff curve r d2 ≤ midRolloff curve r d1 := by
  have hmm : r.MinDistance < r.MaxDistance := lt_of_lt_of_le h1 (le_trans h12 (le_of_lt h2))
  have hden : (0 : ℝ) < r.MaxDistance - r.MinDistance := by linarith
  set v1 := (r.MaxDistance - d1) / (r.MaxDistance - r.MinDistance) with hv1def
  set v2 := (r.MaxDistance - d2) / (r.MaxDistance - r.MinDistance) with hv2def
  have hvle : v2 ≤ v1 := by
    rw [hv1def, hv2def, div_le_div_right hden]
    linarith
  have hv10 : 0 < v1 := div_pos (by linarith) hden
  have hv11 : v1 < 1 := by rw [hv1def, div_lt_one hden]; linarith
  have hv20 : 0 < v2 := div_pos (by linarith) hden
  have hv21 : v2 < 1 := by rw [hv2def, div_lt_one hden]; linarith
  rw [midRolloff, midRolloff]
  split_ifs with hlin hcus
  · exact hvle
  · -- Custom: a larger distance gives a larger index into a
    -- non-increasing curve
    have hi2 := customIdx_lt curve.length hcus.2 v2 hv20 hv21
    have hnn : (0 : ℝ) ≤ (curve.length : ℝ) := by positivity
    have hxle : (curve.length : ℝ) * (1 - v1) ≤ (curve.length : ℝ) * (1 - v2) :=
      mul_le_mul_of_nonneg_left (by linarith) hnn
    have hx10 : (0 : ℝ) ≤ (curve.length : ℝ) * (1 - v1) :=
      mul_nonneg hnn (by linarith)
    have hx20 : (0 : ℝ) ≤ (curve.length : ℝ) * (1 - v2) :=
      mul_nonneg hnn (by linarith)
    have hile : (realTrunc ((curve.length : ℝ) * (1 - v1))).toNat ≤
        (realTrunc ((curve.length : ℝ) * (1 - v2))).toNat := by
      rw [realTrunc, if_pos hx10, realTrunc, if_pos hx20]
      have := Int.floor_le_floor hxle
      omega
    rw [div_le_div_right (by norm_num : (0:ℝ) < 127)]
    exact hcurve _ _ hile hi2
  · -- Doom curve: the power of 10 is monotone in the exponent
    have hpow : (10 : ℝ) ^ v2 ≤ (10 : ℝ) ^ v1 :=
      (Real.rpow_le_rpow_left_iff (by norm_num)).mpr hvle
    rw [div_le_div_right (by norm_num : (0:ℝ) < 9)]
    linarith

/-- C7 counterexample: a Logarithmic descriptor with negative factor is
not non-increasing: at the minimum distance 1 the factor is 1, at
distance 3/2 it is 2. -/
theorem C7_counterexample :
    (1 : ℝ) < 3 / 2 ∧
    GetRolloff [] (some ⟨RolloffKind.log, 1, 10, -1⟩) 1 = 1 ∧
    GetRolloff [] (some ⟨RolloffKind.log, 1, 10, -1⟩) (3 / 2) = 2 := by
  refine ⟨by norm_num, ?_, ?_⟩
  · rw [GetRolloff, if_pos (by norm_num)]
  · rw [GetRolloff, if_neg (by norm_num), if_pos rfl]
    norm_num

/-- C7 (amended): for every rolloff descriptor with non-negative
`min_distance` and, when Logarithmic, non-negative factor, and for a
sound curve that is non-increasing with entries in [0, 127],
`GetRolloff` is non-increasing in the distance, equals 1 at every
`d ≤ min_distance`, and — when additionally `min_distance <
max_distance` — equals 0 at every `d ≥ max_distance` for the non-Log
types (Linear, Doom, Custom). -/
theorem C7_rolloff_monotone (curve : List ℝ) (r : FRolloffInfo ℝ)
    (hmin : 0 ≤ r.MinDistance)
    (hfac : r.RolloffType = .log → 0 ≤ r.RolloffFactor)
    (hcurve : ∀ i j, i ≤ j → j < curve.length → curve.getD j 0 ≤ curve.getD i 0)
    (hcb : ∀ x ∈ curve, 0 ≤ x ∧ x ≤ 127) :
    (∀ d1 d2 : ℝ, d1 ≤ d2 →
      GetRolloff curve (some r) d2 ≤ GetRolloff curve (some r) d1) ∧
    (∀ d : ℝ, d ≤ r.MinDistance → GetRolloff curve (some r) d = 1) ∧
    (r.RolloffType ≠ .log → r.MinDistance < r.MaxDistance →
      ∀ d : ℝ, r.MaxDistance ≤ d → GetRolloff curve (some r) d = 0) := by
  refine ⟨?_, ?_, ?_⟩
  · intro d1 d2 h12
    by_cases h2m : d2 ≤ r.MinDistance
    · rw [getRolloff_of_le_min curve r d2 h2m,
        getRolloff_of_le_min curve r d1 (le_trans h12 h2m)]
    · by_cases h1m : d1 ≤ r.MinDistance
      · rw [getRolloff_of_le_min curve r d1 h1m]
        exact getRolloff_le_one curve r d2 hmin hfac hcb
      · have h1lt := not_le.mp h1m
        have h2lt := not_le.mp h2m
        by_cases hlog : r.RolloffType = .log
        · rw [getRolloff_log_formula curve r d1 h1lt hlog,
            getRolloff_log_formula curve r d2 h2lt hlog]
          have hf := hfac hlog
          rcases eq_or_lt_of_le hmin with hz | hpos
          · rw [← hz]
            simp
          · have hD1 : 0 < r.MinDistance + r.RolloffFactor * (d1 - r.MinDistance) := by
              nlinarith
            have hD2 : 0 < r.MinDistance + r.RolloffFactor * (d2 - r.MinDistance) := by
              nlinarith
            rw [div_le_div_left hpos hD2 hD1]
            nlinarith
        · by_cases h1x : r.MaxDistance ≤ d1
          · rw [getRolloff_of_max_le curve r d1 h1lt hlog h1x,
              getRolloff_of_max_le curve r d2 h2lt hlog (le_trans h1x h12)]
          · by_cases h2x : r.MaxDistance ≤ d2
            · rw [getRolloff_of_max_le curve r d2 h2lt hlog h2x]
              exact getRolloff_nonneg curve r d1 hmin hfac hcb
            · rw [getRolloff_mid_formula curve r d1 h1lt hlog (not_le.mp h1x),
                getRolloff_mid_formula curve r d2 h2lt hlog (not_le.mp h2x)]
              exact midRolloff_antitone curve r hcurve d1 d2 h1lt h12 (not_le.mp h2x)
  · intro d hd
    exact getRolloff_of_le_min curve r d hd
  · intro hlog hmm d hd
    exact getRolloff_of_max_le curve r d (lt_of_lt_of_le hmm hd) hlog hd

/-- Witness for C7: a Linear descriptor over [0, 1] with the trivial
curve; the factor at distance 3 is bounded by the one at distance 2. -/
theorem C7_rolloff_monotone_witness :
    GetRolloff [] (some ⟨RolloffKind.linear, 0, 1, 0⟩) 3 ≤
      GetRolloff [] (some ⟨RolloffKind.linear, 0, 1, 0⟩) 2 :=
  (C7_rolloff_monotone [] ⟨RolloffKind.linear, 0, 1, 0⟩ le_rfl
    (fun h => by cases h) (fun i j _ hj => by simp at hj)
    (fun x hx => by simp at hx)).1 2 3 (by norm_num)

theorem mem_of_mem_eraseIdx {α : Type} :
    ∀ (l : List α) (i : Nat) (a : α), a ∈ l.eraseIdx i → a ∈ l := by
  intro l
  induction l with
  | nil => intro i a h; simp [List.eraseIdx] at h
  | cons x xs ih =>
    intro i a h
    cases i with
    | zero =>
      rw [List.eraseIdx] at h
      exact List.mem_cons_of_mem x h
    | succ n =>
      rw [List.eraseIdx] at h
      rcases List.mem_cons.mp h with rfl | h2
      · exact List.mem_cons_self a xs
      · exact List.mem_cons_of_mem x (ih n a h2)

theorem updateSfx_Channels (s : EngineState) (i : Nat) (f : SfxInfo → SfxInfo) :
    (updateSfx s i f).Channels = s.Channels := rfl

theorem updateSfx_Free (s : EngineState) (i : Nat) (f : SfxInfo → SfxInfo) :
    (updateSfx s i f).FreeChannels = s.FreeChannels := rfl

theorem LoadSoundLoop_preserves (env : Env) :
    ∀ (fuel : Nat) (s : EngineState) (idx : Nat),
    (LoadSoundLoop env fuel s idx).1.Channels = s.Channels ∧
    (LoadSoundLoop env fuel s idx).1.FreeChannels = s.FreeChannels := by
  intro fuel
  induction fuel with
  | zero => intro s idx; exact ⟨rfl, rfl⟩
  | succ f ih =>
    intro s idx
    simp only [LoadSoundLoop]
    repeat' split
    all_goals
      first
        | exact ⟨rfl, rfl⟩
        | exact ⟨(ih _ _).1, (ih _ _).2⟩

theorem LoadSound_preserves (env : Env) (s : EngineState) (idx : Nat) :
    (LoadSound env s idx).1.Channels = s.Channels ∧
    (LoadSound env s idx).1.FreeChannels = s.FreeChannels := by
  rw [LoadSound]
  split
  · exact ⟨rfl, rfl⟩
  · exact LoadSoundLoop_preserves env 3 s idx

theorem stopChannelResult_evicted (c : FSoundChan) (pos len : Nat) (c1 : FSoundChan)
    (h : stopChannelResult c pos len = some c1) : c1.ChanFlags.evicted = true := by
  simp only [stopChannelResult] at h
  split_ifs at h <;>
    first
    | (rw [Option.some.injEq] at h; rw [← h])
    | exact absurd h (by simp)

theorem StopChannelAt_mem (s : EngineState) (i pos len : Nat) :
    ∀ c ∈ (StopChannelAt s i pos len).Channels,
      c ∈ s.Channels ∨ c.ChanFlags.evicted = true := by
  intro c hc
  rw [StopChannelAt] at hc
  revert hc
  split
  · intro hc; exact Or.inl hc
  · split
    · intro hc
      rcases List.mem_or_eq_of_mem_set hc with h | rfl
      · exact Or.inl h
      · exact Or.inr (stopChannelResult_evicted _ _ _ _ (by assumption))
    · intro hc
      exact Or.inl (mem_of_mem_eraseIdx _ _ _ hc)

theorem GetChannel_channels (s : EngineState) (sys : Option Nat) :
    (GetChannel s sys).Channels =
      { s.FreeChannels.headD FSoundChan.zero with SysChannel := sys } :: s.Channels := rfl

/-- The channel list after the collision-stop step of
`startSoundAfterChecks`: each member was already active or is evicted. -/
theorem collisionStep_mem (s : EngineState) (type : SourceKind) (source : Option Nat)
    (pt : Option FVec3) (channel : Nat) (cond : Prop) [Decidable cond] :
    ∀ c ∈ (if cond then
        match s.Channels.findIdx? (collisionPred type source pt channel) with
        | some i => StopChannelAt s i 0 0
        | none => s
      else s).Channels, c ∈ s.Channels ∨ c.ChanFlags.evicted = true := by
  intro c hc
  revert hc
  split
  · split
    · intro hc; exact StopChannelAt_mem _ _ _ _ c hc
    · intro hc; exact Or.inl hc
  · intro hc; exact Or.inl hc

theorem LoadSound3D_channels (env : Env) (s : EngineState) (i : Nat) :
    (LoadSound3D env s i).Channels = s.Channels := by
  rw [LoadSound3D]
  split
  · rfl
  · split <;> rfl

theorem backendStartAttempt_blocked (env : Env) (s : EngineState) (chanflags : ChanFlags)
    (attenuation : ℚ) (sfxIdx : Nat)
    (hblock : chanflags.evicted = true ∨ env.backendOk = false) :
    (backendStartAttempt env s chanflags attenuation sfxIdx).1 = false ∧
    (backendStartAttempt env s chanflags attenuation sfxIdx).2.Channels = s.Channels := by
  rw [backendStartAttempt]
  rcases hblock with hev | hbk
  · rw [if_pos hev]
    exact ⟨rfl, rfl⟩
  · split
    · exact ⟨rfl, rfl⟩
    · split
      · rw [if_neg (by rw [hbk]; exact Bool.false_ne_true)]
        exact ⟨rfl, LoadSound3D_channels env s sfxIdx⟩
      · rw [if_neg (by rw [hbk]; exact Bool.false_ne_true)]
        exact ⟨rfl, rfl⟩

/-- Parked fallback of the backend phase: a blocked or refused looping
start allocates a parked channel at the head of the active list, with
`Evicted` set, no backend voice, and the marked start time. -/
theorem backendPhase_park (env : Env) (s : EngineState) (type : SourceKind)
    (source : Option Nat) (pt : Option FVec3) (channel : Nat) (chanflags : ChanFlags)
    (sfxIdx sound_id org_id : Nat) (volume attenuation : ℚ) (near_limit : Int)
    (limit_range : ℚ) (basepriority pitch : Int) (spitch : ℚ)
    (hloop : chanflags.loop = true)
    (hblock : chanflags.evicted = true ∨ env.backendOk = false) :
    ∃ c s2,
      startSoundBackendPhase env s type source pt channel chanflags sfxIdx sound_id
        org_id volume attenuation near_limit limit_range basepriority pitch spitch =
        (some c, s2) ∧
      c.ChanFlags.evicted = true ∧ c.SysChannel = none ∧ c.StartTime = env.time ∧
      s2.Channels = c :: s.Channels := by
  have hstarted := backendStartAttempt_blocked env s chanflags attenuation sfxIdx hblock
  simp only [startSoundBackendPhase]
  generalize hst : backendStartAttempt env s chanflags attenuation sfxIdx = st
  rw [hst] at hstarted
  obtain ⟨b, s1⟩ := st
  simp only at hstarted
  obtain ⟨hb, hs1⟩ := hstarted
  subst hb
  simp only [Bool.false_eq_true, not_false_eq_true, true_and, hloop, if_pos,
    and_true, if_true]
  refine ⟨_, _, rfl, ?_, ?_, ?_, ?_⟩
  · simp only [updateChanHead, GetChannel, List.headD]
    repeat' split
    all_goals simp [ChanFlags.union]
  · simp only [updateChanHead, GetChannel, List.headD]
    repeat' split
    all_goals simp
  · simp only [updateChanHead, GetChannel, List.headD]
    repeat' split
    all_goals simp
  · simp only [updateChanHead, GetChannel, List.headD]
    rw [hs1]

/-- A blocked or refused non-looping start returns null from the backend
phase without touching the channel list. -/
theorem backendPhase_noloop_none (env : Env) (s : EngineState) (type : SourceKind)
    (source : Option Nat) (pt : Option FVec3) (channel : Nat) (chanflags : ChanFlags)
    (sfxIdx sound_id org_id : Nat) (volume attenuation : ℚ) (near_limit : Int)
    (limit_range : ℚ) (basepriority pitch : Int) (spitch : ℚ)
    (hloop : chanflags.loop = false)
    (hblock : chanflags.evicted = true ∨ env.backendOk = false) :
    (startSoundBackendPhase env s type source pt channel chanflags sfxIdx sound_id
      org_id volume attenuation near_limit limit_range basepriority pitch spitch).1 =
      none ∧
    (startSoundBackendPhase env s type source pt channel chanflags sfxIdx sound_id
      org_id volume attenuation near_limit limit_range basepriority pitch
      spitch).2.Channels = s.Channels := by
  have hstarted := backendStartAttempt_blocked env s chanflags attenuation sfxIdx hblock
  simp only [startSoundBackendPhase]
  generalize hst : backendStartAttempt env s chanflags attenuation sfxIdx = st
  rw [hst] at hstarted
  obtain ⟨b, s1⟩ := st
  simp only at hstarted
  obtain ⟨hb, hs1⟩ := hstarted
  subst hb
  have hcond : ¬ (¬ ((false, s1).1 = true) ∧ chanflags.loop = true) := by
    simp [hloop]
  rw [if_neg hcond]
  exact ⟨rfl, hs1⟩

/-- Projection form of the parked fallback. -/
theorem backendPhase_park_out (env : Env) (s : EngineState) (type : SourceKind)
    (source : Option Nat) (pt : Option FVec3) (channel : Nat) (chanflags : ChanFlags)
    (sfxIdx sound_id org_id : Nat) (volume attenuation : ℚ) (near_limit : Int)
    (limit_range : ℚ) (basepriority pitch : Int) (spitch : ℚ)
    (hloop : chanflags.loop = true)
    (hblock : chanflags.evicted = true ∨ env.backendOk = false) :
    ∃ c,
      (startSoundBackendPhase env s type source pt channel chanflags sfxIdx sound_id
        org_id volume attenuation near_limit limit_range basepriority pitch
        spitch).1 = some c ∧
      c.ChanFlags.evicted = true ∧ c.SysChannel = none ∧ c.StartTime = env.time ∧
      (startSoundBackendPhase env s type source pt channel chanflags sfxIdx sound_id
        org_id volume attenuation near_limit limit_range basepriority pitch
        spitch).2.Channels.headD FSoundChan.zero = c := by
  obtain ⟨c, s2, hph, hev, hsys, ht, hch⟩ :=
    backendPhase_park env s type source pt channel chanflags sfxIdx sound_id org_id
      volume attenuation near_limit limit_range basepriority pitch spitch hloop hblock
  refine ⟨c, ?_, hev, hsys, ht, ?_⟩
  · rw [hph]
  · rw [hph]
    simp [hch]

/-- Once the `Evicted` flag is set on a request (singular or near-limit
block), the remainder of `StartSound` either returns null or hands back
an evicted (parked) channel, and every channel newly present in the
active list is evicted. -/
theorem afterChecks_blocked (env : Env) (s : EngineState) (type : SourceKind)
    (source : Option Nat) (pt : Option FVec3) (channel : Nat) (chanflags : ChanFlags)
    (sound_id org_id : Nat) (volume attenuation : ℚ) (near_limit : Int)
    (limit_range : ℚ) (rolloff : RolloffRef) (forcedrolloff : Option (FRolloffInfo ℚ))
    (pitchmask : Nat) (spitch : ℚ) (rnds : List Nat)
    (hev : chanflags.evicted = true) :
    ((startSoundAfterChecks env s type source pt channel chanflags sound_id org_id
        volume attenuation near_limit limit_range rolloff forcedrolloff pitchmask
        spitch rnds).1 = none ∨
      ∃ c, (startSoundAfterChecks env s type source pt channel chanflags sound_id org_id
        volume attenuation near_limit limit_range rolloff forcedrolloff pitchmask
        spitch rnds).1 = some c ∧ c.ChanFlags.evicted = true) ∧
    (∀ c ∈ (startSoundAfterChecks env s type source pt channel chanflags sound_id org_id
        volume attenuation near_limit limit_range rolloff forcedrolloff pitchmask
        spitch rnds).2.Channels, c ∈ s.Channels ∨ c.ChanFlags.evicted = true) := by
  have hload := LoadSound_preserves env s sound_id
  by_cases hloop : chanflags.loop = true
  · simp only [startSoundAfterChecks]
    rw [if_neg (fun hx => absurd hloop hx.2)]
    split
    · refine ⟨Or.inl rfl, ?_⟩
      intro c hc
      rw [hload.1] at hc
      exact Or.inl hc
    · split
      · refine ⟨Or.inl rfl, ?_⟩
        intro c hc
        rw [hload.1] at hc
        exact Or.inl hc
      · rw [if_neg (fun hx => absurd hloop (by simpa using hx.1))]
        obtain ⟨c, s2, hphase, hcev, hsys, htime, hch⟩ :=
          backendPhase_park env _ type source pt _ chanflags _ sound_id org_id volume
            attenuation near_limit limit_range _ _ spitch hloop (Or.inl hev)
        rw [hphase]
        refine ⟨Or.inr ⟨c, rfl, hcev⟩, ?_⟩
        intro x hx
        rw [hch] at hx
        rcases List.mem_cons.mp hx with rfl | hx2
        · exact Or.inr hcev
        · have := collisionStep_mem _ type source pt _ _ x hx2
          rcases this with h1 | h2
          · rw [hload.1] at h1
            exact Or.inl h1
          · exact Or.inr h2
  · have hloopf : chanflags.loop = false := by
      cases h : chanflags.loop
      · rfl
      · exact absurd h hloop
    simp only [startSoundAfterChecks]
    rw [if_pos ⟨hev, fun h => absurd h hloop⟩]
    exact ⟨Or.inl rfl, fun c hc => Or.inl hc⟩

/-- C1: if the link-resolved sfx of a `StartSound` call has `bSingular`
set and some active channel already carries this resolved SoundID
(`CheckSingular`), the request is marked `Evicted`: the call returns
null or a parked (evicted) channel, and no non-evicted channel is added
to the active list — so a singular sound never acquires a second
playing channel. -/
theorem C1_singular_blocks (env : Env) (s : EngineState) (type0 : SourceKind)
    (source : Option Nat) (pt : Option FVec3) (channelArg : Nat) (sound_id : Int)
    (volume0 attenuation : ℚ) (forcedrolloff : Option (FRolloffInfo ℚ)) (spitch : ℚ)
    (rnds : List Nat) (res : ResolveResult)
    (hres : resolveLinks s (linkFuel s) (linkFuel s) sound_id.toNat rnds
        (s.sfx sound_id.toNat).NearLimit (s.sfx sound_id.toNat).LimitRange
        (RolloffRef.sfxEntry sound_id.toNat) attenuation = some res)
    (hsing : (s.sfx res.id).bSingular = true)
    (hdup : CheckSingular s res.id = true) :
    ((StartSound env s type0 source pt channelArg sound_id volume0 attenuation
        forcedrolloff spitch rnds).1 = none ∨
      ∃ c, (StartSound env s type0 source pt channelArg sound_id volume0 attenuation
        forcedrolloff spitch rnds).1 = some c ∧ c.ChanFlags.evicted = true) ∧
    (∀ c ∈ (StartSound env s type0 source pt channelArg sound_id volume0 attenuation
        forcedrolloff spitch rnds).2.Channels,
      c ∈ s.Channels ∨ c.ChanFlags.evicted = true) := by
  have hSdup : (s.sfx res.id).bSingular = true ∧ CheckSingular s res.id = true :=
    ⟨hsing, hdup⟩
  by_cases hg : sound_id ≤ 0 ∨ volume0 ≤ 0 ∨ env.nosfx = true ∨ env.nosound = true
  · simp only [StartSound, if_pos hg]
    exact ⟨Or.inl (by trivial), fun c hc => Or.inl hc⟩
  · simp only [StartSound, if_neg hg, hres]
    generalize (if type0 = SourceKind.unattached ∧ pt = none then SourceKind.noSource
      else type0) = ty
    split
    · exact ⟨Or.inl (by trivial), fun c hc => Or.inl hc⟩
    · split
      · exact ⟨Or.inl (by trivial), fun c hc => Or.inl hc⟩
      · repeat' split
        all_goals
          first
            | exact absurd hSdup (by assumption)
            | exact afterChecks_blocked env s ty source pt _ _ res.id _ _ _ _ _ _
                _ _ spitch res.rnds rfl

/-- C5: when a start is blocked (singular or near-limit eviction) or the
backend refuses the voice: a non-looping request yields null (a blocked
non-loop aborts with the state untouched; a refused non-loop returns
null); a looping request that gets as far as the backend phase (sound
loaded and not the empty sentinel, a slot available) returns a parked
channel — allocated at the head of the active list, marked with the
backend's current time for bookkeeping, `Evicted` set, no voice
handle. -/
theorem C5_blocked_or_refused (env : Env) (s : EngineState) (type : SourceKind)
    (source : Option Nat) (pt : Option FVec3) (channel : Nat) (chanflags : ChanFlags)
    (sound_id org_id : Nat) (volume attenuation : ℚ) (near_limit : Int)
    (limit_range : ℚ) (rolloff : RolloffRef) (forcedrolloff : Option (FRolloffInfo ℚ))
    (pitchmask : Nat) (spitch : ℚ) (rnds : List Nat) :
    (chanflags.evicted = true → chanflags.loop = false →
      startSoundAfterChecks env s type source pt channel chanflags sound_id org_id
        volume attenuation near_limit limit_range rolloff forcedrolloff pitchmask
        spitch rnds = (none, s)) ∧
    (chanflags.loop = false → env.backendOk = false →
      (startSoundAfterChecks env s type source pt channel chanflags sound_id org_id
        volume attenuation near_limit limit_range rolloff forcedrolloff pitchmask
        spitch rnds).1 = none) ∧
    (chanflags.loop = true → (chanflags.evicted = true ∨ env.backendOk = false) →
      ((LoadSound env s sound_id).1.sfx (LoadSound env s sound_id).2).lumpnum ≠
        env.sfx_empty →
      (if source ≠ none ∧ channel = 0 then
        selectAutoChannel (LoadSound env s sound_id).1 type source
       else some (channel, 0)) ≠ none →
      ∃ c, (startSoundAfterChecks env s type source pt channel chanflags sound_id
          org_id volume attenuation near_limit limit_range rolloff forcedrolloff
          pitchmask spitch rnds).1 = some c ∧
        c.ChanFlags.evicted = true ∧ c.SysChannel = none ∧ c.StartTime = env.time ∧
        (startSoundAfterChecks env s type source pt channel chanflags sound_id org_id
          volume attenuation near_limit limit_range rolloff forcedrolloff pitchmask
          spitch rnds).2.Channels.headD FSoundChan.zero = c) := by
  refine ⟨?_, ?_, ?_⟩
  · intro hev hloopf
    simp only [startSoundAfterChecks]
    rw [if_pos ⟨hev, fun h => absurd h (by simp [hloopf])⟩]
  · intro hloopf hbk
    by_cases hev : chanflags.evicted = true
    · simp only [startSoundAfterChecks]
      rw [if_pos ⟨hev, fun h => absurd h (by simp [hloopf])⟩]
    · simp only [startSoundAfterChecks]
      rw [if_neg (fun hx => hev hx.1)]
      split
      · rfl
      · split
        · rfl
        · split
          · rfl
          · exact (backendPhase_noloop_none env _ type source pt _ chanflags _
              sound_id org_id volume attenuation near_limit limit_range _ _ spitch
              hloopf (Or.inr hbk)).1
  · intro hloop hblock hlump hsel
    simp only [startSoundAfterChecks]
    rw [if_neg (fun hx => absurd hloop hx.2)]
    rw [if_neg hlump]
    split
    · next hX => exact absurd hX hsel
    · next slot seen hX =>
        rw [if_neg (fun hx => hx.1 hloop)]
        exact backendPhase_park_out env _ type source pt _ chanflags _ sound_id org_id
          volume attenuation near_limit limit_range _ _ spitch hloop hblock

/-- Witness for C5: a refused non-looping start on `wSt` returns null
(the backend of this environment refuses every start). -/
theorem C5_blocked_or_refused_witness :
    ChanFlags.zero.loop = false ∧
    (startSoundAfterChecks { scnEnv with backendOk := false } wSt .actor (some 5)
      (some ⟨0, 0, 0⟩) 3 ChanFlags.zero 1 1 1 1 0 65536 (RolloffRef.sfxEntry 1) none 0
      0 []).1 = none :=
  ⟨rfl, (C5_blocked_or_refused { scnEnv with backendOk := false } wSt .actor (some 5)
    (some ⟨0, 0, 0⟩) 3 ChanFlags.zero 1 1 1 1 0 65536 (RolloffRef.sfxEntry 1) none 0
    0 []).2.1 rfl rfl⟩

/-- Witness for C1: starting singular sound 1 while it is already
playing in `wSingSt` blocks the start and adds no non-evicted channel. -/
theorem C1_singular_blocks_witness :
    ((StartSound scnEnv wSingSt .actor (some 5) (some ⟨0, 0, 0⟩) 0 1 1 1 none 0 []).1 =
        none ∨
      ∃ c, (StartSound scnEnv wSingSt .actor (some 5) (some ⟨0, 0, 0⟩) 0 1 1 1 none 0
        []).1 = some c ∧ c.ChanFlags.evicted = true) ∧
    (∀ c ∈ (StartSound scnEnv wSingSt .actor (some 5) (some ⟨0, 0, 0⟩) 0 1 1 1 none 0
        []).2.Channels, c ∈ wSingSt.Channels ∨ c.ChanFlags.evicted = true) :=
  C1_singular_blocks scnEnv wSingSt .actor (some 5) (some ⟨0, 0, 0⟩) 0 1 1 1 none 0 []
    ⟨1, [], 0, 65536, RolloffRef.sfxEntry 1, 1⟩ (by decide) (by decide) (by decide)

/-- Soundness of the limit loop: a `true` answer means at least
`near_limit` in-range matching channels exist (beyond the running
count). -/
theorem cslAux_sound (env : Env) (sfxId : Nat) (pos : FVec3) (near_limit : Int)
    (limit_range : ℚ) (sourcetype : SourceKind) (actor : Option Nat) (channel : Nat) :
    ∀ (l : List FSoundChan) (count : Int),
      CheckSoundLimitAux env sfxId pos near_limit limit_range sourcetype actor channel
        l count = true →
      near_limit ≤ count + ((l.filter (inRangeMatch env sfxId pos limit_range)).length : Int) := by
  intro l
  induction l with
  | nil =>
      intro count h
      simp only [CheckSoundLimitAux, ge_iff_le, decide_eq_true_eq] at h
      simp only [List.filter_nil, List.length_nil, Nat.cast_zero, add_zero]
      exact h
  | cons chan rest ih =>
      intro count h
      simp only [CheckSoundLimitAux] at h
      by_cases hcl : count < near_limit
      · rw [if_neg (not_not_intro hcl)] at h
        by_cases hm : ¬ chan.ChanFlags.evicted = true ∧ chan.SoundID = sfxId
        · rw [if_pos hm] at h
          by_cases ht : actor ≠ none ∧ chan.EntChannel = channel ∧
              chan.SourceType = sourcetype ∧ chan.Source = actor
          · rw [if_pos ht] at h
            exact absurd h (by simp)
          · rw [if_neg ht] at h
            by_cases hd : distSq ((env.calcPosVel chan.SourceType chan.Source
                (some chan.Point) chan.EntChannel chan.ChanFlags).1) pos ≤ limit_range
            · rw [if_pos hd] at h
              have hIR : inRangeMatch env sfxId pos limit_range chan = true := by
                simp only [inRangeMatch, decide_eq_true_eq]
                exact ⟨hm.1, hm.2, hd⟩
              have := ih (count + 1) h
              simp only [List.filter_cons, hIR, if_true, List.length_cons] at *
              push_cast at this ⊢
              omega
            · rw [if_neg hd] at h
              have hIR : inRangeMatch env sfxId pos limit_range chan = false := by
                simp only [inRangeMatch, decide_eq_false_iff_not]
                exact fun hx => hd hx.2.2
              have := ih count h
              simp only [List.filter_cons, hIR, Bool.false_eq_true, if_false]
              exact this
        · rw [if_neg hm] at h
          have hIR : inRangeMatch env sfxId pos limit_range chan = false := by
            simp only [inRangeMatch, decide_eq_false_iff_not]
            exact fun hx => hm ⟨hx.1, hx.2.1⟩
          have := ih count h
          simp only [List.filter_cons, hIR, Bool.false_eq_true, if_false]
          exact this
      · have hle : near_limit ≤ count := le_of_not_lt hcl
        have : (0 : Int) ≤ (((chan :: rest).filter
            (inRangeMatch env sfxId pos limit_range)).length : Int) := Int.ofNat_nonneg _
        omega

/-- Completeness of the limit loop when no channel triggers the restart
exemption: the answer is `true` exactly when the running count plus the
in-range matches reach the limit. -/
theorem cslAux_complete (env : Env) (sfxId : Nat) (pos : FVec3) (near_limit : Int)
    (limit_range : ℚ) (sourcetype : SourceKind) (actor : Option Nat) (channel : Nat) :
    ∀ (l : List FSoundChan) (count : Int),
      (∀ c ∈ l, restartExempt sfxId sourcetype actor channel c = false) →
      (CheckSoundLimitAux env sfxId pos near_limit limit_range sourcetype actor channel
          l count = true ↔
        near_limit ≤ count + ((l.filter (inRangeMatch env sfxId pos limit_range)).length : Int)) := by
  intro l
  induction l with
  | nil =>
      intro count _
      simp only [CheckSoundLimitAux, ge_iff_le, decide_eq_true_eq, List.filter_nil,
        List.length_nil, Nat.cast_zero, add_zero]
  | cons chan rest ih =>
      intro count hno
      simp only [CheckSoundLimitAux]
      by_cases hcl : count < near_limit
      · rw [if_neg (not_not_intro hcl)]
        by_cases hm : ¬ chan.ChanFlags.evicted = true ∧ chan.SoundID = sfxId
        · rw [if_pos hm]
          by_cases ht : actor ≠ none ∧ chan.EntChannel = channel ∧
              chan.SourceType = sourcetype ∧ chan.Source = actor
          · have hre : restartExempt sfxId sourcetype actor channel chan = true := by
              simp only [restartExempt, decide_eq_true_eq]
              exact ⟨hm.1, hm.2, ht⟩
            have hno1 := hno chan (List.mem_cons_self chan rest)
            rw [hre] at hno1
            exact absurd hno1 (by simp)
          · rw [if_neg ht]
            by_cases hd : distSq ((env.calcPosVel chan.SourceType chan.Source
                (some chan.Point) chan.EntChannel chan.ChanFlags).1) pos ≤ limit_range
            · rw [if_pos hd]
              have hIR : inRangeMatch env sfxId pos limit_range chan = true := by
                simp only [inRangeMatch, decide_eq_true_eq]
                exact ⟨hm.1, hm.2, hd⟩
              have := ih (count + 1) (fun c hc => hno c (List.mem_cons_of_mem chan hc))
              simp only [List.filter_cons, hIR, if_true, List.length_cons]
              rw [this]
              push_cast
              omega
            · rw [if_neg hd]
              have hIR : inRangeMatch env sfxId pos limit_range chan = false := by
                simp only [inRangeMatch, decide_eq_false_iff_not]
                exact fun hx => hd hx.2.2
              have := ih count (fun c hc => hno c (List.mem_cons_of_mem chan hc))
              simp only [List.filter_cons, hIR, Bool.false_eq_true, if_false]
              exact this
        · rw [if_neg hm]
          have hIR : inRangeMatch env sfxId pos limit_range chan = false := by
            simp only [inRangeMatch, decide_eq_false_iff_not]
            exact fun hx => hm ⟨hx.1, hx.2.1⟩
          have := ih count (fun c hc => hno c (List.mem_cons_of_mem chan hc))
          simp only [List.filter_cons, hIR, Bool.false_eq_true, if_false]
          exact this
      · rw [if_pos hcl]
        have hle : near_limit ≤ count := le_of_not_lt hcl
        have hnn : (0 : Int) ≤ (((chan :: rest).filter
            (inRangeMatch env sfxId pos limit_range)).length : Int) := Int.ofNat_nonneg _
        simp only [ge_iff_le, decide_eq_true_eq]
        constructor
        · intro _; omega
        · intro _; exact hle

/-- The restart exemption fires only if the loop reaches the exempting
channel, i.e. if the in-range matches before it keep the count below
the limit. -/
theorem cslAux_exempt (env : Env) (sfxId : Nat) (pos : FVec3) (near_limit : Int)
    (limit_range : ℚ) (sourcetype : SourceKind) (actor : Option Nat) (channel : Nat)
    (c : FSoundChan) (post : List FSoundChan)
    (hc : restartExempt sfxId sourcetype actor channel c = true) :
    ∀ (pre : List FSoundChan) (count : Int),
      count + ((pre.filter (inRangeMatch env sfxId pos limit_range)).length : Int) <
        near_limit →
      CheckSoundLimitAux env sfxId pos near_limit limit_range sourcetype actor channel
        (pre ++ c :: post) count = false := by
  simp only [restartExempt, decide_eq_true_eq] at hc
  intro pre
  induction pre with
  | nil =>
      intro count hlt
      simp only [List.filter_nil, List.length_nil, Nat.cast_zero, add_zero] at hlt
      simp only [List.nil_append, CheckSoundLimitAux]
      rw [if_neg (not_not_intro hlt), if_pos ⟨hc.1, hc.2.1⟩, if_pos hc.2.2]
  | cons chan pre' ih =>
      intro count hlt
      have hnn : (0 : Int) ≤ (((chan :: pre').filter
          (inRangeMatch env sfxId pos limit_range)).length : Int) := Int.ofNat_nonneg _
      have hcl : count < near_limit := by omega
      simp only [List.cons_append, CheckSoundLimitAux]
      rw [if_neg (not_not_intro hcl)]
      by_cases hm : ¬ chan.ChanFlags.evicted = true ∧ chan.SoundID = sfxId
      · rw [if_pos hm]
        by_cases ht : actor ≠ none ∧ chan.EntChannel = channel ∧
            chan.SourceType = sourcetype ∧ chan.Source = actor
        · rw [if_pos ht]
        · rw [if_neg ht]
          by_cases hd : distSq ((env.calcPosVel chan.SourceType chan.Source
              (some chan.Point) chan.EntChannel chan.ChanFlags).1) pos ≤ limit_range
          · rw [if_pos hd]
            have hIR : inRangeMatch env sfxId pos limit_range chan = true := by
              simp only [inRangeMatch, decide_eq_true_eq]
              exact ⟨hm.1, hm.2, hd⟩
            refine ih (count + 1) ?_
            simp only [List.filter_cons, hIR, if_true, List.length_cons] at hlt
            push_cast at hlt ⊢
            omega
          · rw [if_neg hd]
            have hIR : inRangeMatch env sfxId pos limit_range chan = false := by
              simp only [inRangeMatch, decide_eq_false_iff_not]
              exact fun hx => hd hx.2.2
            refine ih count ?_
            simp only [List.filter_cons, hIR, Bool.false_eq_true, if_false] at hlt
            exact hlt
      · rw [if_neg hm]
        have hIR : inRangeMatch env sfxId pos limit_range chan = false := by
          simp only [inRangeMatch, decide_eq_false_iff_not]
          exact fun hx => hm ⟨hx.1, hx.2.1⟩
        refine ih count ?_
        simp only [List.filter_cons, hIR, Bool.false_eq_true, if_false] at hlt
        exact hlt

/-- C4 (amended): the near-limit check is sound — a `true` answer (which
sets `Evicted` in `StartSound`) requires at least `near_limit`
non-evicted in-range channels of the same sound; it is a complete count
when no channel matches the restart tuple; and the restart exemption
applies only when the exempting channel is reached before the count hits
the limit, because the source loop exits as soon as `count` reaches
`near_limit`.  The original claim's unconditional exemption is refuted
by `C4_counterexample`. -/
theorem C4_near_limit_check (env : Env) (s : EngineState) (sfxId : Nat) (pos : FVec3)
    (near_limit : Int) (limit_range : ℚ) (sourcetype : SourceKind) (actor : Option Nat)
    (channel : Nat) :
    (CheckSoundLimit env s sfxId pos near_limit limit_range sourcetype actor channel =
        true →
      near_limit ≤
        ((s.Channels.filter (inRangeMatch env sfxId pos limit_range)).length : Int)) ∧
    ((∀ c ∈ s.Channels, restartExempt sfxId sourcetype actor channel c = false) →
      (CheckSoundLimit env s sfxId pos near_limit limit_range sourcetype actor channel =
          true ↔
        near_limit ≤
          ((s.Channels.filter (inRangeMatch env sfxId pos limit_range)).length : Int))) ∧
    (∀ pre c post, s.Channels = pre ++ c :: post →
      restartExempt sfxId sourcetype actor channel c = true →
      ((pre.filter (inRangeMatch env sfxId pos limit_range)).length : Int) < near_limit →
      CheckSoundLimit env s sfxId pos near_limit limit_range sourcetype actor channel =
        false) := by
  refine ⟨?_, ?_, ?_⟩
  · intro h
    have := cslAux_sound env sfxId pos near_limit limit_range sourcetype actor channel
      s.Channels 0 h
    simpa using this
  · intro hno
    have := cslAux_complete env sfxId pos near_limit limit_range sourcetype actor channel
      s.Channels 0 hno
    simpa using this
  · intro pre c post hch hc hlt
    have := cslAux_exempt env sfxId pos near_limit limit_range sourcetype actor channel
      c post hc pre 0 (by simpa using hlt)
    simpa only [CheckSoundLimit, hch] using this

/-- Witness for C4: on `wSt` with no exempting tuple (null actor), the
check answers `true` exactly because the two in-range copies of sound 1
meet the limit 1. -/
theorem C4_near_limit_check_witness :
    (∀ c ∈ wSt.Channels, restartExempt 1 SourceKind.actor none 3 c = false) ∧
    CheckSoundLimit scnEnv wSt 1 ⟨0, 0, 0⟩ 1 65536 SourceKind.actor none 3 = true :=
  ⟨by decide,
    ((C4_near_limit_check scnEnv wSt 1 ⟨0, 0, 0⟩ 1 65536 SourceKind.actor none
      3).2.1 (by decide)).mpr (by
        norm_num [wSt, wChLoop, wChActor, scnEnv, inRangeMatch, distSq,
          FSoundChan.zero, ChanFlags.zero, List.filter])⟩

/-- Counterexample to C4 as stated: `cxSt` holds a non-evicted channel
with the same `(source_type, actor, channel)` tuple as the new start, so
the claimed exemption should let the sound play; but the in-range copy
ahead of it on the list fills the limit first, the loop exits early,
`CheckSoundLimit` answers `true`, and the non-looped `StartSound` call
returns null. -/
theorem C4_counterexample :
    restartExempt 1 SourceKind.actor (some 5) 3 cxChSame = true ∧
    cxChSame ∈ cxSt.Channels ∧
    CheckSoundLimit scnEnv cxSt 1 ⟨0, 0, 0⟩ 1 65536 SourceKind.actor (some 5) 3 =
      true ∧
    (StartSound scnEnv cxSt SourceKind.actor (some 5) (some ⟨0, 0, 0⟩) 3 1 1 1 none 0
      []).1 = none := by
  have hcf : ChanFlags.fromPacked 3 = ChanFlags.zero := by decide
  refine ⟨by decide, by decide, ?_, ?_⟩
  · norm_num [CheckSoundLimit, CheckSoundLimitAux, cxSt, cxChOther, cxChSame, scnEnv,
      distSq, FSoundChan.zero, ChanFlags.zero, EngineState.sfx]
  · norm_num [StartSound, startSoundAfterChecks, resolveLinks, linkFuel,
      EngineState.sfx, cxSt, cxSfx, scnSfx, cxChOther, cxChSame, scnEnv, hcf,
      ChanFlags.zero, FSoundChan.zero, rolloffDeref, CheckSingular, CheckSoundLimit,
      CheckSoundLimitAux, distSq]
    decide

/-- The found/not-found answer of the `IsChannelUsed` scan does not
depend on the `seen` accumulator: it is exactly "some channel of this
source occupies the slot". -/
theorem isChannelUsedAux_fst (sourcetype : SourceKind) (actor : Option Nat)
    (channel : Nat) :
    ∀ (l : List FSoundChan) (seen : Nat),
      (IsChannelUsedAux sourcetype actor channel l seen).1 =
        l.any (fun chan => chan.SourceType = sourcetype ∧ chan.Source = actor ∧
          chan.EntChannel = channel) := by
  intro l
  induction l with
  | nil => intro seen; simp [IsChannelUsedAux]
  | cons chan rest ih =>
      intro seen
      simp only [IsChannelUsedAux, List.any_cons]
      by_cases hm : chan.SourceType = sourcetype ∧ chan.Source = actor
      · rw [if_pos hm]
        by_cases he : chan.EntChannel = channel
        · rw [if_pos he]
          have hp : decide (chan.SourceType = sourcetype ∧ chan.Source = actor ∧
              chan.EntChannel = channel) = true := by
            simp only [decide_eq_true_eq]
            exact ⟨hm.1, hm.2, he⟩
          rw [hp]
          simp
        · rw [if_neg he]
          have hp : decide (chan.SourceType = sourcetype ∧ chan.Source = actor ∧
              chan.EntChannel = channel) = false := by
            simp only [decide_eq_false_iff_not]
            exact fun hx => he hx.2.2
          rw [ih, hp]
          simp
      · rw [if_neg hm]
        have hp : decide (chan.SourceType = sourcetype ∧ chan.Source = actor ∧
            chan.EntChannel = channel) = false := by
          simp only [decide_eq_false_iff_not]
          exact fun hx => hm ⟨hx.1, hx.2.1⟩
        rw [ih, hp]
        simp

/-- Every bit the `IsChannelUsed` scan adds to the `seen` mask is the
slot of a channel of this source on the active list. -/
theorem isChannelUsedAux_seen (s : EngineState) (sourcetype : SourceKind)
    (actor : Option Nat) (channel : Nat) :
    ∀ (l : List FSoundChan) (seen : Nat),
      (∀ c ∈ l, c ∈ s.Channels) →
      (∀ k, seen.testBit k = true → slotUsed s sourcetype actor k = true) →
      ∀ k, (IsChannelUsedAux sourcetype actor channel l seen).2.testBit k = true →
        slotUsed s sourcetype actor k = true := by
  intro l
  induction l with
  | nil => intro seen _ hs k hk; exact hs k (by simpa [IsChannelUsedAux] using hk)
  | cons chan rest ih =>
      intro seen hsub hs k
      simp only [IsChannelUsedAux]
      by_cases hm : chan.SourceType = sourcetype ∧ chan.Source = actor
      · rw [if_pos hm]
        have hs' : ∀ j, (seen ||| (1 <<< chan.EntChannel)).testBit j = true →
            slotUsed s sourcetype actor j = true := by
          intro j hj
          rw [Nat.testBit_or] at hj
          cases h1 : seen.testBit j
          · rw [h1, Bool.false_or] at hj
            have hsh : (1 <<< chan.EntChannel) = 2 ^ chan.EntChannel := by
              rw [Nat.shiftLeft_eq, one_mul]
            rw [hsh, Nat.testBit_two_pow] at hj
            have hj' : chan.EntChannel = j := by simpa using hj
            subst hj'
            simp only [slotUsed, List.any_eq_true]
            refine ⟨chan, hsub chan (List.mem_cons_self chan rest), ?_⟩
            simp only [decide_eq_true_eq]
            refine ⟨hm.1, hm.2, ?_⟩
            trivial
          · exact hs j h1
        by_cases he : chan.EntChannel = channel
        · rw [if_pos he]
          exact fun hk => hs' k hk
        · rw [if_neg he]
          exact fun hk => ih _ (fun c hc => hsub c (List.mem_cons_of_mem chan hc))
            hs' k hk
      · rw [if_neg hm]
        exact fun hk => ih _ (fun c hc => hsub c (List.mem_cons_of_mem chan hc)) hs k hk

/-- Specification of `IsChannelUsed` under the `seen`-mask invariant:
the answer is the plain slot-occupancy predicate, and the returned mask
keeps the invariant. -/
theorem isChannelUsed_spec (s : EngineState) (sourcetype : SourceKind)
    (actor : Option Nat) (channel : Nat) (seen : Nat)
    (hs : ∀ k, seen.testBit k = true → slotUsed s sourcetype actor k = true) :
    (IsChannelUsed s sourcetype actor channel seen).1 =
      slotUsed s sourcetype actor channel ∧
    (∀ k, (IsChannelUsed s sourcetype actor channel seen).2.testBit k = true →
      slotUsed s sourcetype actor k = true) := by
  simp only [IsChannelUsed]
  by_cases ht : seen.testBit channel
  · rw [if_pos ht]
    exact ⟨(hs channel ht).symm, hs⟩
  · rw [if_neg ht]
    exact ⟨isChannelUsedAux_fst sourcetype actor channel s.Channels seen,
      isChannelUsedAux_seen s sourcetype actor channel s.Channels seen
        (fun c hc => hc) hs⟩

/-- The descending probe loop takes the first free slot of
`n, n-1, ..., 1` (and returns none when all are occupied). -/
theorem autoChannelLoop_find (s : EngineState) (sourcetype : SourceKind)
    (actor : Option Nat) :
    ∀ (n : Nat) (seen : Nat),
      (∀ k, seen.testBit k = true → slotUsed s sourcetype actor k = true) →
      (autoChannelLoop s sourcetype actor n seen).map Prod.fst =
        (descList n).find? (fun c => slotUsed s sourcetype actor c = false) := by
  intro n
  induction n with
  | zero => intro seen _; simp [autoChannelLoop, descList]
  | succ n ih =>
      intro seen hs
      have hspec := isChannelUsed_spec s sourcetype actor (n + 1) seen hs
      simp only [autoChannelLoop, descList]
      by_cases hu : slotUsed s sourcetype actor (n + 1) = true
      · rw [if_neg (not_not_intro (by rw [hspec.1]; exact hu))]
        rw [ih _ hspec.2]
        have hp : decide (slotUsed s sourcetype actor (n + 1) = false) = false := by
          simp [hu]
        rw [List.find?_cons, hp]
      · have hu' : slotUsed s sourcetype actor (n + 1) = false := by
          cases h : slotUsed s sourcetype actor (n + 1)
          · rfl
          · exact absurd h hu
        rw [if_pos (fun h => absurd (hspec.1.symm.trans h) (by simp [hu']))]
        have hp : decide (slotUsed s sourcetype actor (n + 1) = false) = true := by
          simp [hu']
        rw [List.find?_cons, hp]
        rfl

/-- Slot selection for slot AUTO: slot 0 if this source does not occupy
it, else the first free slot probing 7 down to 1, else none. -/
theorem selectAutoChannel_find (s : EngineState) (sourcetype : SourceKind)
    (actor : Option Nat) :
    (selectAutoChannel s sourcetype actor).map Prod.fst =
      if slotUsed s sourcetype actor 0 = false then some 0
      else (descList 7).find? (fun c => slotUsed s sourcetype actor c = false) := by
  have hs0 : ∀ k, (0 : Nat).testBit k = true → slotUsed s sourcetype actor k = true := by
    intro k hk
    rw [Nat.zero_testBit] at hk
    exact absurd hk (by simp)
  have hspec := isChannelUsed_spec s sourcetype actor 0 0 hs0
  simp only [selectAutoChannel]
  by_cases hu : slotUsed s sourcetype actor 0 = true
  · rw [if_neg (not_not_intro (by rw [hspec.1]; exact hu))]
    rw [autoChannelLoop_find s sourcetype actor 7 _ hspec.2]
    rw [if_neg (by simp [hu])]
  · have hu' : slotUsed s sourcetype actor 0 = false := by
      cases h : slotUsed s sourcetype actor 0
      · rfl
      · exact absurd h hu
    rw [if_pos (fun h => absurd (hspec.1.symm.trans h) (by simp [hu']))]
    rw [if_pos hu']
    rfl

set_option maxHeartbeats 2000000 in
/-- One successful scenario start on an already-loaded state: the chosen
auto slot `k` (with its `seen` mask) yields the scenario channel at the
head of the list. -/
theorem scnStart_step (slots : List Nat) (k seen : Nat)
    (hsel : selectAutoChannel (scnStateN slots) SourceKind.actor (some 1) =
      some (k, seen))
    (hused : (IsChannelUsed (scnStateN slots) SourceKind.actor (some 1) k seen).1 =
      false) :
    scnStart (scnStateN slots) = (some (scnCh k), scnStateN (k :: slots)) := by
  have hcf : ChanFlags.fromPacked 0 = ChanFlags.zero := by decide
  have hsfx1 : (scnStateN slots).sfx 1 = scnSfxLoaded := rfl
  have hfuel : linkFuel (scnStateN slots) = 10 := rfl
  have hchs : (scnStateN slots).Channels = slots.map scnCh := rfl
  have hfc : (scnStateN slots).FreeChannels = [] := rfl
  have hne1 : (SourceKind.actor = SourceKind.unattached) = False := eq_false (by decide)
  have hne2 : (SourceKind.actor = SourceKind.noSource) = False := eq_false (by decide)
  have hne3 : ((some (1 : Nat) : Option Nat) = none) = False := eq_false (by decide)
  have hne4 : ((some (⟨0, 0, 0⟩ : FVec3) : Option FVec3) = none) = False :=
    eq_false (by decide)
  norm_num [scnStart, StartSound, startSoundAfterChecks, startSoundBackendPhase,
    backendStartAttempt, LoadSound, LoadSoundLoop, LoadSound3D, GetChannel,
    updateChanHead, resolveLinks, hfuel, hsfx1, hsel, hused, hchs, hfc, scnEnv,
    scnSfxLoaded, scnSfx, hcf, hne1, hne2, hne3, hne4, ChanFlags.zero,
    ChanFlags.union, FSoundChan.zero, rolloffDeref]
  norm_num [scnStateN, scnCh, scnSfxLoaded, scnSfx, ChanFlags.zero, ChanFlags.union,
    FSoundChan.zero]

set_option maxHeartbeats 2000000 in
/-- A scenario start on an already-loaded state with every slot occupied
returns null and leaves the state unchanged. -/
theorem scnStart_full (slots : List Nat)
    (hsel : selectAutoChannel (scnStateN slots) SourceKind.actor (some 1) = none) :
    scnStart (scnStateN slots) = (none, scnStateN slots) := by
  have hcf : ChanFlags.fromPacked 0 = ChanFlags.zero := by decide
  have hsfx1 : (scnStateN slots).sfx 1 = scnSfxLoaded := rfl
  have hfuel : linkFuel (scnStateN slots) = 10 := rfl
  have hne1 : (SourceKind.actor = SourceKind.unattached) = False := eq_false (by decide)
  have hne2 : (SourceKind.actor = SourceKind.noSource) = False := eq_false (by decide)
  have hne3 : ((some (1 : Nat) : Option Nat) = none) = False := eq_false (by decide)
  have hne4 : ((some (⟨0, 0, 0⟩ : FVec3) : Option FVec3) = none) = False :=
    eq_false (by decide)
  norm_num [scnStart, StartSound, startSoundAfterChecks, LoadSound, LoadSoundLoop,
    resolveLinks, hfuel, hsfx1, hsel, scnEnv, scnSfxLoaded, scnSfx, hcf, hne1, hne2,
    hne3, hne4, ChanFlags.zero, FSoundChan.zero, rolloffDeref]

set_option maxHeartbeats 2000000 in
/-- The first scenario start: it loads the sound (installing the decoder
handles) and takes slot 0. -/
theorem scnStart_zero : scnStart scnState = (some (scnCh 0), scnStateN [0]) := by
  have hcf : ChanFlags.fromPacked 0 = ChanFlags.zero := by decide
  have hload : LoadSound scnEnv scnState 1 = (scnStateN [], 1) := by decide
  have hsel : selectAutoChannel (scnStateN []) SourceKind.actor (some 1) =
      some (0, 0) := by decide
  have hused : (IsChannelUsed (scnStateN []) SourceKind.actor (some 1) 0 0).1 =
      false := by decide
  have hsfx0 : scnState.sfx 1 = scnSfx := rfl
  have hsfx1 : (scnStateN []).sfx 1 = scnSfxLoaded := rfl
  have hfuel : linkFuel scnState = 10 := rfl
  have hchs : (scnStateN []).Channels = [] := rfl
  have hfc : (scnStateN []).FreeChannels = [] := rfl
  have hne1 : (SourceKind.actor = SourceKind.unattached) = False := eq_false (by decide)
  have hne2 : (SourceKind.actor = SourceKind.noSource) = False := eq_false (by decide)
  have hne3 : ((some (1 : Nat) : Option Nat) = none) = False := eq_false (by decide)
  have hne4 : ((some (⟨0, 0, 0⟩ : FVec3) : Option FVec3) = none) = False :=
    eq_false (by decide)
  have hcp : ∀ a b c d e, scnEnv.calcPosVel a b c d e =
      (⟨0, 0, 0⟩, ⟨0, 0, 0⟩) := fun _ _ _ _ _ => rfl
  have hvp : ∀ a b c d, scnEnv.validatePosVel a b c d = true := fun _ _ _ _ => rfl
  have hnosfx : scnEnv.nosfx = false := rfl
  have hnosnd : scnEnv.nosound = false := rfl
  have hlo : scnEnv.listenerObject = none := rfl
  have hse : scnEnv.sfx_empty = -2 := rfl
  have hsp : scnEnv.SoundPaused = false := rfl
  have hbk : scnEnv.backendOk = true := rfl
  have hin : scnEnv.isNull = false := rfl
  norm_num [scnStart, StartSound, startSoundAfterChecks, startSoundBackendPhase,
    backendStartAttempt, hload, LoadSound3D, GetChannel, updateChanHead, resolveLinks,
    hfuel, hsfx0, hsfx1, hsel, hused, hchs, hfc, hcp, hvp, hnosfx, hnosnd, hlo, hse,
    hsp, hbk, hin, scnSfxLoaded, scnSfx, hcf, hne1, hne2, hne3, hne4, ChanFlags.zero,
    ChanFlags.union, FSoundChan.zero, rolloffDeref]
  norm_num [scnStateN, scnCh, scnSfxLoaded, scnSfx, ChanFlags.zero, ChanFlags.union,
    FSoundChan.zero]

/-- The scenario states reached by the first eight starts. -/
theorem scnIter_states :
    scnIter 1 = scnStateN [0] ∧
    scnIter 2 = scnStateN [7, 0] ∧
    scnIter 3 = scnStateN [6, 7, 0] ∧
    scnIter 4 = scnStateN [5, 6, 7, 0] ∧
    scnIter 5 = scnStateN [4, 5, 6, 7, 0] ∧
    scnIter 6 = scnStateN [3, 4, 5, 6, 7, 0] ∧
    scnIter 7 = scnStateN [2, 3, 4, 5, 6, 7, 0] ∧
    scnIter 8 = scnStateN [1, 2, 3, 4, 5, 6, 7, 0] := by
  have e1 : scnIter 1 = scnStateN [0] := by
    rw [show scnIter 1 = (scnStart (scnIter 0)).2 from rfl,
      show scnIter 0 = scnState from rfl, scnStart_zero]
  have e2 : scnIter 2 = scnStateN [7, 0] := by
    rw [show scnIter 2 = (scnStart (scnIter 1)).2 from rfl, e1,
      scnStart_step [0] 7 1 (by decide) (by decide)]
  have e3 : scnIter 3 = scnStateN [6, 7, 0] := by
    rw [show scnIter 3 = (scnStart (scnIter 2)).2 from rfl, e2,
      scnStart_step [7, 0] 6 129 (by decide) (by decide)]
  have e4 : scnIter 4 = scnStateN [5, 6, 7, 0] := by
    rw [show scnIter 4 = (scnStart (scnIter 3)).2 from rfl, e3,
      scnStart_step [6, 7, 0] 5 193 (by decide) (by decide)]
  have e5 : scnIter 5 = scnStateN [4, 5, 6, 7, 0] := by
    rw [show scnIter 5 = (scnStart (scnIter 4)).2 from rfl, e4,
      scnStart_step [5, 6, 7, 0] 4 225 (by decide) (by decide)]
  have e6 : scnIter 6 = scnStateN [3, 4, 5, 6, 7, 0] := by
    rw [show scnIter 6 = (scnStart (scnIter 5)).2 from rfl, e5,
      scnStart_step [4, 5, 6, 7, 0] 3 241 (by decide) (by decide)]
  have e7 : scnIter 7 = scnStateN [2, 3, 4, 5, 6, 7, 0] := by
    rw [show scnIter 7 = (scnStart (scnIter 6)).2 from rfl, e6,
      scnStart_step [3, 4, 5, 6, 7, 0] 2 249 (by decide) (by decide)]
  have e8 : scnIter 8 = scnStateN [1, 2, 3, 4, 5, 6, 7, 0] := by
    rw [show scnIter 8 = (scnStart (scnIter 7)).2 from rfl, e7,
      scnStart_step [2, 3, 4, 5, 6, 7, 0] 1 253 (by decide) (by decide)]
  exact ⟨e1, e2, e3, e4, e5, e6, e7, e8⟩

/-- C2 (amended): with a non-null source and slot AUTO, slot 0 is probed
first and, if this source occupies it, slots 7 down to 1 are probed and
the first unoccupied one is taken (`none` when all eight are occupied);
so the repeated-start scenario hands out slots 0, 7, 6, 5, 4, 3, 2,
then 1 on the eighth call, and it is the ninth call that returns null.
The original claim's "the eighth call returns null" is refuted by
`C2_counterexample`. -/
theorem C2_auto_slot_probing (s : EngineState) (type : SourceKind)
    (source : Option Nat) :
    ((selectAutoChannel s type source).map Prod.fst =
      if slotUsed s type source 0 = false then some 0
      else [7, 6, 5, 4, 3, 2, 1].find? (fun c => slotUsed s type source c = false)) ∧
    scnSlots 9 = [some 0, some 7, some 6, some 5, some 4, some 3, some 2, some 1,
      none] := by
  obtain ⟨e1, e2, e3, e4, e5, e6, e7, e8⟩ := scnIter_states
  constructor
  · have h := selectAutoChannel_find s type source
    norm_num [descList] at h ⊢
    exact h
  · have hrg : List.range 9 = [0, 1, 2, 3, 4, 5, 6, 7, 8] := by decide
    simp only [scnSlots, hrg, List.map_cons, List.map_nil]
    rw [show scnIter 0 = scnState from rfl, scnStart_zero, e1,
      scnStart_step [0] 7 1 (by decide) (by decide), e2,
      scnStart_step [7, 0] 6 129 (by decide) (by decide), e3,
      scnStart_step [6, 7, 0] 5 193 (by decide) (by decide), e4,
      scnStart_step [5, 6, 7, 0] 4 225 (by decide) (by decide), e5,
      scnStart_step [4, 5, 6, 7, 0] 3 241 (by decide) (by decide), e6,
      scnStart_step [3, 4, 5, 6, 7, 0] 2 249 (by decide) (by decide), e7,
      scnStart_step [2, 3, 4, 5, 6, 7, 0] 1 253 (by decide) (by decide), e8,
      scnStart_full [1, 2, 3, 4, 5, 6, 7, 0] (by decide)]
    simp [scnCh]

/-- Counterexample to C2 as stated: the eighth repeated AUTO start on the
same actor does not return null — it fills the last free slot, 1. -/
theorem C2_counterexample :
    (scnStart (scnIter 7)).1.map (fun c => c.EntChannel) = some 1 := by
  rw [scnIter_states.2.2.2.2.2.2.1,
    scnStart_step [2, 3, 4, 5, 6, 7, 0] 1 253 (by decide) (by decide)]
  simp [scnCh]

end GZDoomSound
